import Mathlib

/-!
Verification of the k-means color-quantization core (`src/m-core.js`).

The embedding models the JavaScript source shallowly:
* numeric samples and distances are exact rationals (`ℚ`);
* a JavaScript value that may be `undefined` is an `Option`;
* code that can throw returns `Except JsErr`;
* the unbounded `while (true)` loop of `kMeans` is given explicit fuel
  (the number of loop iterations it is allowed to run); `none` means the
  loop did not finish within the given fuel.
-/

/-- A pixel or centroid: an ordered list of numeric channel samples. -/
abbrev Point := List ℚ

/-- Kinds of JavaScript runtime errors the core can raise, plus the
`invalidInput` error demanded by the specification (which the code never
raises). -/
inductive JsErr where
  | typeError
  | rangeError
  | referenceError
  | invalidInput
deriving DecidableEq, Repr

deriving instance DecidableEq for Except

/-- Source `isArrayEqual(arr1, arr2)` (m-core.js lines 19-23): length check
followed by element-wise strict equality. -/
def isArrayEqual (arr1 arr2 : Point) : Bool :=
  arr1.length == arr2.length && ((arr1.zip arr2).all fun ab => ab.1 == ab.2)

/-- `isArrayEqual` applied to possibly-`undefined` arguments: reading
`.length` of `undefined` throws a `TypeError`. -/
def isArrayEqualJs : Option Point → Option Point → Except JsErr Bool
  | none, _ => .error .typeError
  | some _, none => .error .typeError
  | some a, some b => .ok (isArrayEqual a b)

/-- One draw of the seeded generator from `createSeededRandom` (m-core.js
lines 131-136): advance `seed = (seed * 9301 + 49297) % 233280` and return
`seed / 233280` together with the new state. -/
def seededRandom (seed : ℕ) : ℚ × ℕ :=
  let s := (seed * 9301 + 49297) % 233280
  ((s : ℚ) / 233280, s)

/-- `Math.floor(random() * n)`: the index-drawing pattern used for initial
centroids (line 154) and empty-cluster reseeding (line 174). -/
def randomIndex (seed n : ℕ) : ℕ × ℕ :=
  let rs := seededRandom seed
  ((⌊rs.1 * n⌋).toNat, rs.2)

/-- Squared Euclidean distance as summed by the inner loop of
`nearestNeighbor` (lines 96-98); the sum ranges over the query point's
indices, so a longer neighbor's extra channels are ignored. -/
def sqDist (p q : Point) : ℚ :=
  ((p.zip q).map fun ab => (ab.1 - ab.2) ^ 2).sum

/-- Distance computation of one `nearestNeighbor` scan step.  An
`undefined` neighbor throws when the query point is non-empty (reading
`neighbor[j]` of `undefined`); a neighbor shorter than the query yields
`undefined` samples, so the sum becomes `NaN`, modelled as `Option.none`. -/
def distOf (point : Point) (nb : Option Point) : Except JsErr (Option ℚ) :=
  match point, nb with
  | [], _ => .ok (some 0)
  | _ :: _, none => .error .typeError
  | _, some nbr =>
    if point.length ≤ nbr.length then .ok (some (sqDist point nbr))
    else .ok none

/-- Scan loop of `nearestNeighbor` (lines 93-103): `i` is the current index,
`bestDist = none` encodes the initial `Infinity`, a `NaN` distance never
wins a `<` comparison, and the update is strict so the first minimum is
kept. -/
def nnGo (point : Point) :
    List (Option Point) → ℤ → Option ℚ → ℤ → Except JsErr ℤ
  | [], _, _, bestIndex => .ok bestIndex
  | nb :: rest, i, bestDist, bestIndex =>
    match distOf point nb with
    | .error e => .error e
    | .ok none => nnGo point rest (i + 1) bestDist bestIndex
    | .ok (some d) =>
      match bestDist with
      | none => nnGo point rest (i + 1) (some d) i
      | some bd =>
        if d < bd then nnGo point rest (i + 1) (some d) i
        else nnGo point rest (i + 1) bestDist bestIndex

/-- Source `nearestNeighbor(point, neighbors)` (lines 90-105): returns the
index of the closest neighbor, `-1` when no comparison ever succeeds. -/
def nearestNeighbor (point : Point) (neighbors : List (Option Point)) :
    Except JsErr ℤ :=
  nnGo point neighbors 0 none (-1)

/-- Source `centroid(dataset)` (lines 114-128): running incremental mean,
folded in dataset order, starting from a zero vector sized by the first
point. -/
def centroid (dataset : List Point) : Point :=
  match dataset with
  | [] => []
  | d0 :: _ =>
    dataset.enum.foldl
      (fun rc ip =>
        ip.2.enum.foldl
          (fun rc2 jp =>
            rc2.set jp.1
              (rc2.getD jp.1 0 + (jp.2 - rc2.getD jp.1 0) / ((ip.1 : ℚ) + 1)))
          rc)
      (List.replicate d0.length (0 : ℚ))

/-- Initial centroid selection of `kMeans` (lines 152-156): `k` seeded
draws, each picking `dataset[Math.floor(random() * dataset.length)]`
(`undefined`, i.e. `none`, when the dataset is empty). -/
def initCentroids (dataset : List Point) : ℕ → ℕ → List (Option Point) × ℕ
  | 0, seed => ([], seed)
  | k + 1, seed =>
    let is := randomIndex seed dataset.length
    let rest := initCentroids dataset k is.2
    (dataset.get? is.1 :: rest.1, rest.2)

/-- Assignment step of `kMeans` (lines 160-165): push each dataset point
onto the cluster of its nearest centroid; `clusters[-1].push` (or any
out-of-range cluster index) throws a `TypeError`. -/
def assignGo :
    List Point → List (Option Point) → List (List Point) →
      Except JsErr (List (List Point))
  | [], _, clusters => .ok clusters
  | point :: rest, centroids, clusters =>
    match nearestNeighbor point centroids with
    | .error e => .error e
    | .ok i =>
      if 0 ≤ i ∧ i.toNat < clusters.length then
        assignGo rest centroids
          (clusters.set i.toNat (clusters.getD i.toNat [] ++ [point]))
      else .error .typeError

/-- Update step of `kMeans` (lines 166-179): for each cluster in slot
order, take the running mean when non-empty, otherwise reseed from a fresh
random dataset index; the convergence flag is folded with the
short-circuiting `&&` of line 177, comparing each new centroid to the old
one before it is overwritten. -/
def updateGo (dataset : List Point) :
    List (List Point) → List (Option Point) → ℕ → Bool →
      Except JsErr (List (Option Point) × Bool × ℕ)
  | [], _, seed, conv => .ok ([], conv, seed)
  | cl :: cls, olds, seed, conv =>
    let cs : Option Point × ℕ :=
      match cl with
      | [] =>
        let is := randomIndex seed dataset.length
        (dataset.get? is.1, is.2)
      | _ => (some (centroid cl), seed)
    match (if conv then isArrayEqualJs cs.1 (olds.headD none) else .ok false) with
    | .error e => .error e
    | .ok conv2 =>
      match updateGo dataset cls olds.tail cs.2 conv2 with
      | .error e => .error e
      | .ok res => .ok (cs.1 :: res.1, res.2.1, res.2.2)

/-- The `while (true)` loop of `kMeans` (lines 157-181), with fuel: `none`
means the loop was still running after `fuel` iterations.  The loop exits
only through the convergence break of line 180 (or by throwing). -/
def kMeansGo (dataset : List Point) (k : ℕ) :
    ℕ → ℕ → List (Option Point) → Option (Except JsErr (List Point))
  | 0, _, _ => none
  | fuel + 1, seed, centroids =>
    match assignGo dataset centroids (List.replicate k []) with
    | .error e => some (.error e)
    | .ok clusters =>
      match updateGo dataset clusters centroids seed true with
      | .error e => some (.error e)
      | .ok res =>
        if res.2.1 then some (.ok (res.1.map fun c => c.getD []))
        else kMeansGo dataset k fuel res.2.2 res.1

/-- Source `kMeans(dataset, k)` (lines 146-183) with `k` passed explicitly:
a fresh seeded generator starting from seed 0, `k` random initial
centroids, then the assignment/update loop. -/
def kMeans (dataset : List Point) (k : ℕ) (fuel : ℕ) :
    Option (Except JsErr (List Point)) :=
  let init := initCentroids dataset k 0
  kMeansGo dataset k fuel init.2 init.1

/-- Round half to even, the `ToUint8Clamp` rounding mode used by
`Uint8ClampedArray` writes. -/
def roundHalfEven (x : ℚ) : ℤ :=
  let f := ⌊x⌋
  if x - f < 1 / 2 then f
  else if 1 / 2 < x - f then f + 1
  else if f % 2 = 0 then f else f + 1

/-- Writing a number into a `Uint8ClampedArray` slot: clamp to `[0, 255]`
and round ties to even. -/
def toUint8Clamp (x : ℚ) : ℕ :=
  if x ≤ 0 then 0 else if 255 ≤ x then 255 else (roundHalfEven x).toNat

/-- Writing a possibly-`undefined` value: `undefined` converts to `NaN`,
which clamps to 0. -/
def toUint8ClampOpt : Option ℚ → ℕ
  | none => 0
  | some x => toUint8Clamp x

/-- The `current_pixel` buffer of `quantize` (lines 207-212): a
`Uint8ClampedArray` of `nChannels` slots filled from the source pixel. -/
def currentPixelOf (pixel : Point) (nChannels : ℕ) : Point :=
  (List.range nChannels).map fun j => ((toUint8ClampOpt (pixel.get? j) : ℕ) : ℚ)

/-- One pixel of `quantize` (lines 208-218).  `envCentroids` models the
free variable `centroids` read on line 214: the source binds no such
variable in any enclosing scope, so `none` (unbound) throws a
`ReferenceError`; note the nearest-neighbor search itself runs against the
`colors` parameter (line 213).  The quantized samples are written through
a `Uint8ClampedArray`, hence clamped and rounded; channels beyond the
matched color's length keep the buffer's zero fill. -/
def quantizePixel (envCentroids : Option (List Point)) (colors : List Point)
    (nChannels : ℕ) (pixel : Point) : Except JsErr Point :=
  match nearestNeighbor (currentPixelOf pixel nChannels) (colors.map some) with
  | .error e => .error e
  | .ok i =>
    match envCentroids with
    | none => .error .referenceError
    | some cents =>
      match (if 0 ≤ i then cents.get? i.toNat else none) with
      | none => .error .typeError
      | some nearestColor =>
        .ok ((List.range nChannels).map fun j =>
          if j < nearestColor.length then
            ((toUint8Clamp (nearestColor.getD j 0) : ℕ) : ℚ)
          else 0)

/-- The pixel loop of `quantize` (line 208): process pixels in raster
order, propagating the first thrown error. -/
def quantizeGo (envCentroids : Option (List Point)) (colors : List Point)
    (nChannels : ℕ) : List Point → Except JsErr (List Point)
  | [] => .ok []
  | px :: rest =>
    match quantizePixel envCentroids colors nChannels px with
    | .error e => .error e
    | .ok qpx =>
      match quantizeGo envCentroids colors nChannels rest with
      | .error e => .error e
      | .ok qrest => .ok (qpx :: qrest)

/-- Source `quantize(img, colors)` (lines 186-230) at the sample level: the
raster is the row-major list of its pixels with `nChannels` samples each;
canvas decoding/encoding is outside the model. -/
def quantize (envCentroids : Option (List Point)) (imgPixels : List Point)
    (nChannels : ℕ) (colors : List Point) : Except JsErr (List Point) :=
  quantizeGo envCentroids colors nChannels imgPixels

/-- Source `rescaleDimensions(w, h, pixels)` (lines 35-41), with JavaScript
doubles idealized as reals. -/
noncomputable def rescaleDimensions (w h pixels : ℝ) : ℤ × ℤ :=
  let aspectRatio := w / h
  let scalingFactor := Real.sqrt (pixels / aspectRatio)
  (⌊aspectRatio * scalingFactor⌋, ⌊scalingFactor⌋)

/-- Pure-ℕ form of one seeded-generator state advance (the `seededRandom`
state update, without the rational quotient). -/
def nxt (s : ℕ) : ℕ := (s * 9301 + 49297) % 233280

/-- Bins (floor-indices into a 3-point dataset) of `m` successive seeded
draws, together with the final generator state: the ℕ-arithmetic mirror of
iterating `randomIndex · 3`. -/
def binRun : ℕ → ℕ → List ℕ × ℕ
  | 0, s => ([], s)
  | m + 1, s =>
    let s2 := nxt s
    let r := binRun m s2
    (s2 * 3 / 233280 :: r.1, r.2)

/-- The reseed-window state of one `kMeans` iteration on the diverging
input, iterated `n` times: `none` as soon as the exact-equality convergence
test would succeed (all twelve reseeded slots redrawn with the bins of the
previous iteration). -/
def iterState : ℕ → ℕ → List ℕ → Option (ℕ × List ℕ)
  | 0, s, w => some (s, w)
  | n + 1, s, w =>
    let r := binRun 12 s
    if r.1 == w then none else iterState n r.2 r.1

/-- A three-point dataset on which the `kMeans` loop never converges when
`k = 15`. -/
def D3 : List Point := [[0], [1], [3]]

/-- The centroid slot produced by a seeded draw with bin `b` on `D3`. -/
def toC (b : ℕ) : Option Point := some (D3.getD b [])

/-- The 15-slot centroid state of the diverging run: three stable slots
holding `[0]`, `[3]`, `[1]` (the first three seeded draws, each owning its
own singleton cluster forever) followed by the 12 perpetually empty,
perpetually reseeded slots with current bins `w`. -/
def stateOf (w : List ℕ) : List (Option Point) :=
  some [0] :: some [3] :: some [1] :: w.map toC

/-- The cluster assignment reached at every iteration of the diverging
run: each of the three points sits alone in the cluster of the stable slot
holding its value, and the 12 trailing clusters are empty. -/
def clusters3 : List (List Point) :=
  [[[0]], [[3]], [[1]], [], [], [], [], [], [], [], [], [], [], [], []]

/-- The reseed-slot bins immediately after initialization of the diverging
run (draws 4 through 15 of the seed-0 generator, binned over 3 points). -/
def w0 : List ℕ := [2, 2, 0, 1, 2, 2, 1, 0, 2, 1, 0, 1]

/-- Non-termination of `kMeans` on an input: no amount of loop fuel makes
the `while (true)` loop of lines 157-181 finish. -/
def kMeansDiverges (dataset : List Point) (k : ℕ) : Prop :=
  ∀ fuel, kMeans dataset k fuel = none

/-! Helper lemmas about the shape of `kMeans` results. -/

lemma assignGo_ok_length :
    ∀ (pts : List Point) (cents : List (Option Point))
      (cls r : List (List Point)),
      assignGo pts cents cls = .ok r → r.length = cls.length := by
  intro pts
  induction pts with
  | nil =>
    intro cents cls r h
    simp only [assignGo] at h
    cases h
    rfl
  | cons pt pts ih =>
    intro cents cls r h
    rw [assignGo] at h
    split at h
    · cases h
    · split at h
      · have h2 := ih _ _ _ h
        rw [h2, List.length_set]
      · cases h

lemma updateGo_ok_length (dataset : List Point) :
    ∀ (cls : List (List Point)) (olds : List (Option Point)) (seed : ℕ)
      (conv : Bool) (res : List (Option Point) × Bool × ℕ),
      updateGo dataset cls olds seed conv = .ok res →
        res.1.length = cls.length := by
  intro cls
  induction cls with
  | nil =>
    intro olds seed conv res h
    simp only [updateGo] at h
    cases h
    rfl
  | cons cl cls ih =>
    intro olds seed conv res h
    cases cl with
    | nil =>
      rw [updateGo] at h
      split at h
      · cases h
      · split at h
        · cases h
        · cases h
          simpa using congrArg Nat.succ (ih _ _ _ _ (by assumption))
    | cons c0 crest =>
      rw [updateGo] at h
      · split at h
        · cases h
        · split at h
          · cases h
          · cases h
            simpa using congrArg Nat.succ (ih _ _ _ _ (by assumption))
      · simp

lemma kMeansGo_ok_length (dataset : List Point) (k : ℕ) :
    ∀ (fuel seed : ℕ) (cents : List (Option Point)) (p : List Point),
      kMeansGo dataset k fuel seed cents = some (.ok p) → p.length = k := by
  intro fuel
  induction fuel with
  | zero =>
    intro seed cents p h
    simp [kMeansGo] at h
  | succ fuel ih =>
    intro seed cents p h
    rw [kMeansGo] at h
    split at h
    · simp at h
    · split at h
      · simp at h
      · split at h
        · simp only [Option.some_inj] at h
          cases h
          have hassign := assignGo_ok_length dataset cents _ _ (by assumption)
          have hupd := updateGo_ok_length dataset _ _ _ _ _ (by assumption)
          simp [List.length_map, hupd, hassign]
        · exact ih _ _ _ h

lemma kMeans_ok_length (D : List Point) (k fuel : ℕ) (p : List Point)
    (hres : kMeans D k fuel = some (.ok p)) : p.length = k :=
  kMeansGo_ok_length D k fuel _ _ p hres

/-- C1: `quantize` does not read its `colors` parameter when substituting
pixel values.  The nearest-neighbor search runs against `colors`
(line 213), but the substituted value is `centroids[...]` (line 214), a
variable bound in no enclosing scope of the source: with it unbound the
call throws a `ReferenceError`, and a scope that does bind `centroids`
makes the output follow that binding rather than the palette argument
(here the pixel `[0,0,0,0]` coincides with the only `colors` entry yet is
replaced by `[10,10,10,10]`). -/
theorem quantize_reads_enclosing_centroids :
    quantize none [[0, 0, 0, 0]] 4 [[0, 0, 0, 0]] = .error .referenceError ∧
      quantize (some [[10, 10, 10, 10]]) [[0, 0, 0, 0]] 4 [[0, 0, 0, 0]] =
        .ok [[10, 10, 10, 10]] ∧
      ([[(10 : ℚ), 10, 10, 10]] : List Point) ≠ [[0, 0, 0, 0]] :=
  ⟨by with_unfolding_all decide, by with_unfolding_all decide,
    by with_unfolding_all decide⟩

/-- C3 counterexample: `kMeans` never clamps `k`.  On the one-point
dataset `[[0,0,0,255]]` with `k = 2` it returns a palette of two
(duplicate) centroids, not `|D| = 1` centroids as the claim states. -/
theorem kMeans_k_two_on_singleton_dataset :
    kMeans [[0, 0, 0, 255]] 2 2 =
        some (.ok [[0, 0, 0, 255], [0, 0, 0, 255]]) ∧
      ([[0, 0, 0, 255], [0, 0, 0, 255]] : List Point).length = 2 ∧
      ([[(0 : ℚ), 0, 0, 255]] : List Point).length = 1 :=
  ⟨by with_unfolding_all decide, rfl, rfl⟩

/-- C3 amended: for `k > |D|` a successful `kMeans` call returns exactly
`k` centroids (with duplicates), never `|D|` of them: the code contains no
clamping of `k`. -/
theorem kMeans_does_not_clamp (D : List Point) (k fuel : ℕ) (p : List Point)
    (hk : D.length < k) (hres : kMeans D k fuel = some (.ok p)) :
    p.length = k ∧ p.length ≠ D.length := by
  have hlen : p.length = k := kMeans_ok_length D k fuel p hres
  exact ⟨hlen, by omega⟩

/-- C3 amended, instantiated: the singleton dataset with `k = 2`. -/
theorem kMeans_does_not_clamp_witness :
    ([[(0 : ℚ), 0, 0, 255]] : List Point).length < 2 ∧
      ([[0, 0, 0, 255], [0, 0, 0, 255]] : List Point).length = 2 ∧
      ([[0, 0, 0, 255], [0, 0, 0, 255]] : List Point).length ≠
        ([[(0 : ℚ), 0, 0, 255]] : List Point).length :=
  ⟨by decide,
    kMeans_does_not_clamp [[0, 0, 0, 255]] 2 2 [[0, 0, 0, 255], [0, 0, 0, 255]]
      (by decide) (by with_unfolding_all decide)⟩

/-- C4 counterexample: no `InvalidInput` failure exists.  An empty dataset
with `k = 1` crashes with a `TypeError` (comparing `undefined` centroids in
the convergence check), and a non-empty dataset with `k = 0` crashes with a
`TypeError` (`clusters[-1].push` on `undefined`). -/
theorem kMeans_invalid_inputs_throw_typeError :
    kMeans [] 1 2 = some (.error .typeError) ∧
      kMeans [[0, 0, 0, 255]] 0 2 = some (.error .typeError) ∧
      JsErr.typeError ≠ JsErr.invalidInput :=
  ⟨by with_unfolding_all decide, by with_unfolding_all decide, by decide⟩

/-- C4 amended: `kMeans` performs no input validation and never raises
`InvalidInput`.  For every `k ≥ 1` a call on the empty dataset throws a
`TypeError` (the convergence check reads `.length` of the `undefined`
centroids), and for every non-empty dataset a call with `k = 0` throws a
`TypeError` (`nearestNeighbor` returns `-1` and `clusters[-1].push` is a
property access on `undefined`). -/
theorem kMeans_no_input_validation (k fuel : ℕ) (D : List Point)
    (hk : 1 ≤ k) (hf : 1 ≤ fuel) (hD : D ≠ []) :
    kMeans [] k fuel = some (.error .typeError) ∧
      kMeans D 0 fuel = some (.error .typeError) := by
  obtain ⟨k', rfl⟩ : ∃ k', k = k' + 1 := ⟨k - 1, by omega⟩
  obtain ⟨f', rfl⟩ : ∃ f', fuel = f' + 1 := ⟨fuel - 1, by omega⟩
  obtain ⟨d0, D', rfl⟩ : ∃ d0 D', D = d0 :: D' := by
    cases D with
    | nil => exact absurd rfl hD
    | cons a b => exact ⟨a, b, rfl⟩
  constructor
  · simp only [kMeans]
    rw [kMeansGo]
    simp only [assignGo, List.replicate_succ]
    rw [updateGo]
    simp [isArrayEqualJs]
  · simp only [kMeans]
    rw [kMeansGo]
    rw [assignGo]
    simp [nearestNeighbor, nnGo]

/-- C4 amended, instantiated at `k = 1`, `fuel = 1`, dataset `[[0]]`. -/
theorem kMeans_no_input_validation_witness :
    ((1 : ℕ) ≤ 1 ∧ (1 : ℕ) ≤ 1 ∧ ([[(0 : ℚ)]] : List Point) ≠ []) ∧
      kMeans [] 1 1 = some (.error .typeError) ∧
      kMeans [[(0 : ℚ)]] 0 1 = some (.error .typeError) :=
  ⟨⟨le_refl 1, le_refl 1, by decide⟩,
    kMeans_no_input_validation 1 1 [[(0 : ℚ)]] (le_refl 1) (le_refl 1)
      (by decide)⟩

/-- C10: `nearestNeighbor` with an empty candidate list returns the
sentinel `-1` (no comparison ever beats the initial `Infinity`), and
`kMeans` with zero centroids feeds that `-1` straight into a cluster
lookup, failing on the out-of-range index with a `TypeError`. -/
theorem nearestNeighbor_empty_returns_sentinel :
    (∀ point : Point, nearestNeighbor point [] = .ok (-1)) ∧
      kMeans [[0, 0, 0, 255]] 0 1 = some (.error .typeError) :=
  ⟨fun _ => rfl, by with_unfolding_all decide⟩

lemma kMeansGo_det (dataset : List Point) (k : ℕ) :
    ∀ (f1 f2 seed : ℕ) (cents : List (Option Point))
      (r1 r2 : Except JsErr (List Point)),
      kMeansGo dataset k f1 seed cents = some r1 →
      kMeansGo dataset k f2 seed cents = some r2 → r1 = r2 := by
  intro f1
  induction f1 with
  | zero =>
    intro f2 seed cents r1 r2 h1 h2
    simp [kMeansGo] at h1
  | succ f1 ih =>
    intro f2 seed cents r1 r2 h1 h2
    cases f2 with
    | zero => simp [kMeansGo] at h2
    | succ f2 =>
      rw [kMeansGo] at h1 h2
      cases hassign : assignGo dataset cents (List.replicate k []) with
      | error e =>
        simp only [hassign] at h1 h2
        cases h1
        cases h2
        rfl
      | ok clusters =>
        simp only [hassign] at h1 h2
        cases hupd : updateGo dataset clusters cents seed true with
        | error e =>
          simp only [hupd] at h1 h2
          cases h1
          cases h2
          rfl
        | ok res =>
          simp only [hupd] at h1 h2
          by_cases hc : res.2.1 = true
          · rw [if_pos hc] at h1 h2
            cases h1
            cases h2
            rfl
          · rw [if_neg hc] at h1 h2
            exact ih f2 _ _ _ _ h1 h2

/-- C9: clustering is deterministic.  The embedding of `kMeans` is a pure
function of the dataset and `k` alone — the seeded generator is created
afresh inside each call with the fixed seed 0 and cluster means are folded
in dataset order — so any two calls that finish (with any fuel) return the
identical palette. -/
theorem kMeans_deterministic (D : List Point) (k fuel1 fuel2 : ℕ)
    (r1 r2 : Except JsErr (List Point))
    (h1 : kMeans D k fuel1 = some r1) (h2 : kMeans D k fuel2 = some r2) :
    r1 = r2 := by
  simp only [kMeans] at h1 h2
  exact kMeansGo_det D k fuel1 fuel2 _ _ r1 r2 h1 h2

/-- C9, instantiated: two runs on `[[0]]` with different fuel agree. -/
theorem kMeans_deterministic_witness :
    kMeans [[(0 : ℚ)]] 1 1 = some (.ok [[0]]) ∧
      kMeans [[(0 : ℚ)]] 1 5 = some (.ok [[0]]) ∧
      (Except.ok [[(0 : ℚ)]] : Except JsErr (List Point)) = .ok [[0]] :=
  ⟨by with_unfolding_all decide, by with_unfolding_all decide,
    kMeans_deterministic [[(0 : ℚ)]] 1 1 5 _ _ (by with_unfolding_all decide)
      (by with_unfolding_all decide)⟩

/-- C7: the rescale law.  For positive integer width, height and pixel
budget, `rescaleDimensions` computes `w' = ⌊aspectRatio * scale⌋` and
`h' = ⌊scale⌋` with `scale = sqrt(P / aspectRatio)` (that is its
definition), and the rescaled area satisfies `w' * h' ≤ P`; concretely
`rescaleDimensions 100 100 10000 = (100, 100)`. -/
theorem rescaleDimensions_area_bound (w h P : ℕ)
    (hw : 0 < w) (hh : 0 < h) (hP : 0 < P) :
    (((rescaleDimensions (w : ℝ) (h : ℝ) (P : ℝ)).1 : ℝ) *
        ((rescaleDimensions (w : ℝ) (h : ℝ) (P : ℝ)).2 : ℝ) ≤ (P : ℝ)) ∧
      rescaleDimensions 100 100 10000 = (100, 100) := by
  constructor
  · have ha : (0 : ℝ) < (w : ℝ) / (h : ℝ) :=
      div_pos (by exact_mod_cast hw) (by exact_mod_cast hh)
    have hPa : (0 : ℝ) ≤ (P : ℝ) / ((w : ℝ) / (h : ℝ)) :=
      le_of_lt (div_pos (by exact_mod_cast hP) ha)
    have hs0 : 0 ≤ Real.sqrt ((P : ℝ) / ((w : ℝ) / (h : ℝ))) :=
      Real.sqrt_nonneg _
    have hss :
        Real.sqrt ((P : ℝ) / ((w : ℝ) / (h : ℝ))) *
          Real.sqrt ((P : ℝ) / ((w : ℝ) / (h : ℝ))) =
            (P : ℝ) / ((w : ℝ) / (h : ℝ)) := Real.mul_self_sqrt hPa
    have has : (0 : ℝ) ≤
        ((w : ℝ) / (h : ℝ)) * Real.sqrt ((P : ℝ) / ((w : ℝ) / (h : ℝ))) :=
      mul_nonneg ha.le hs0
    have h1 :
        ((⌊((w : ℝ) / (h : ℝ)) * Real.sqrt ((P : ℝ) / ((w : ℝ) / (h : ℝ)))⌋ : ℝ)) ≤
          ((w : ℝ) / (h : ℝ)) * Real.sqrt ((P : ℝ) / ((w : ℝ) / (h : ℝ))) :=
      Int.floor_le _
    have h2 :
        ((⌊Real.sqrt ((P : ℝ) / ((w : ℝ) / (h : ℝ)))⌋ : ℝ)) ≤
          Real.sqrt ((P : ℝ) / ((w : ℝ) / (h : ℝ))) := Int.floor_le _
    have h2n : (0 : ℝ) ≤ ((⌊Real.sqrt ((P : ℝ) / ((w : ℝ) / (h : ℝ)))⌋ : ℝ)) := by
      exact_mod_cast Int.floor_nonneg.mpr hs0
    show ((⌊((w : ℝ) / (h : ℝ)) * Real.sqrt ((P : ℝ) / ((w : ℝ) / (h : ℝ)))⌋ : ℝ)) *
        ((⌊Real.sqrt ((P : ℝ) / ((w : ℝ) / (h : ℝ)))⌋ : ℝ)) ≤ (P : ℝ)
    calc ((⌊((w : ℝ) / (h : ℝ)) * Real.sqrt ((P : ℝ) / ((w : ℝ) / (h : ℝ)))⌋ : ℝ)) *
        ((⌊Real.sqrt ((P : ℝ) / ((w : ℝ) / (h : ℝ)))⌋ : ℝ)) ≤
          (((w : ℝ) / (h : ℝ)) * Real.sqrt ((P : ℝ) / ((w : ℝ) / (h : ℝ)))) *
            Real.sqrt ((P : ℝ) / ((w : ℝ) / (h : ℝ))) :=
        mul_le_mul h1 h2 h2n has
      _ = ((w : ℝ) / (h : ℝ)) *
            (Real.sqrt ((P : ℝ) / ((w : ℝ) / (h : ℝ))) *
              Real.sqrt ((P : ℝ) / ((w : ℝ) / (h : ℝ)))) := by ring
      _ = ((w : ℝ) / (h : ℝ)) * ((P : ℝ) / ((w : ℝ) / (h : ℝ))) := by rw [hss]
      _ = (P : ℝ) := mul_div_cancel₀ _ (ne_of_gt ha)
  · have e1 : (100 : ℝ) / 100 = 1 := by norm_num
    have hsqrt : Real.sqrt ((10000 : ℝ) / ((100 : ℝ) / 100)) = 100 := by
      rw [e1, div_one, show (10000 : ℝ) = 100 ^ 2 by norm_num,
        Real.sqrt_sq (by norm_num : (0 : ℝ) ≤ 100)]
    have hsq2 : Real.sqrt (10000 : ℝ) = 100 := by
      rw [show (10000 : ℝ) = 100 ^ 2 by norm_num,
        Real.sqrt_sq (by norm_num : (0 : ℝ) ≤ 100)]
    simp only [rescaleDimensions, e1, div_one, hsq2, one_mul]
    norm_num [Int.floor_ofNat]

/-- C7, instantiated at width 100, height 100, budget 10000. -/
theorem rescaleDimensions_area_bound_witness :
    ((0 : ℕ) < 100 ∧ (0 : ℕ) < 100 ∧ (0 : ℕ) < 10000) ∧
      ((((rescaleDimensions ((100 : ℕ) : ℝ) ((100 : ℕ) : ℝ) ((10000 : ℕ) : ℝ)).1 : ℝ) *
          ((rescaleDimensions ((100 : ℕ) : ℝ) ((100 : ℕ) : ℝ) ((10000 : ℕ) : ℝ)).2 : ℝ) ≤
            ((10000 : ℕ) : ℝ)) ∧
        rescaleDimensions 100 100 10000 = (100, 100)) :=
  ⟨⟨by decide, by decide, by decide⟩,
    rescaleDimensions_area_bound 100 100 10000 (by decide) (by decide) (by decide)⟩

lemma distOf_eq_sqDist (p q : Point) (hl : p.length ≤ q.length) :
    distOf p (some q) = .ok (some (sqDist p q)) := by
  cases p with
  | nil => simp [distOf, sqDist]
  | cons a as =>
    simp only [distOf]
    rw [if_pos hl]

lemma nnGo_first_min (p : Point) :
    ∀ (l : List Point), (∀ q ∈ l, p.length ≤ q.length) →
      ∀ (i : ℤ) (b : ℚ) (bi : ℤ),
        (nnGo p (l.map some) i (some b) bi = .ok bi ∧
          ∀ u, u < l.length → b ≤ sqDist p (l.getD u [])) ∨
        (∃ t, t < l.length ∧
          nnGo p (l.map some) i (some b) bi = .ok (i + (t : ℤ)) ∧
          sqDist p (l.getD t []) < b ∧
          (∀ u, u < l.length →
            sqDist p (l.getD t []) ≤ sqDist p (l.getD u [])) ∧
          (∀ u, u < t → sqDist p (l.getD t []) < sqDist p (l.getD u []))) := by
  intro l
  induction l with
  | nil =>
    intro _ i b bi
    left
    exact ⟨rfl, fun u hu => by simp at hu⟩
  | cons q l ih =>
    intro hlen i b bi
    have hq : p.length ≤ q.length := hlen q (by simp)
    have hrest : ∀ r ∈ l, p.length ≤ r.length := fun r hr => hlen r (by simp [hr])
    have hstep : nnGo p ((q :: l).map some) i (some b) bi =
        (if sqDist p q < b then
          nnGo p (l.map some) (i + 1) (some (sqDist p q)) i
        else nnGo p (l.map some) (i + 1) (some b) bi) := by
      simp [nnGo, distOf_eq_sqDist p q hq]
    by_cases hd : sqDist p q < b
    · rw [hstep, if_pos hd]
      rcases ih hrest (i + 1) (sqDist p q) i with
        ⟨heq, hmin⟩ | ⟨t, ht, heq, hlt, hmin, hstrict⟩
      · right
        refine ⟨0, by simp, by simpa using heq, by simpa using hd, ?_,
          fun u hu => absurd hu (by omega)⟩
        intro u hu
        cases u with
        | zero => simp
        | succ u => simpa using hmin u (by simpa using hu)
      · right
        refine ⟨t + 1, by simpa using ht, ?_, ?_, ?_, ?_⟩
        · rw [heq]
          congr 1
          push_cast
          ring
        · simpa using lt_trans hlt hd
        · intro u hu
          cases u with
          | zero => simpa using le_of_lt hlt
          | succ u => simpa using hmin u (by simpa using hu)
        · intro u hu
          cases u with
          | zero => simpa using hlt
          | succ u => simpa using hstrict u (by omega)
    · rw [hstep, if_neg hd]
      rcases ih hrest (i + 1) b bi with
        ⟨heq, hmin⟩ | ⟨t, ht, heq, hlt, hmin, hstrict⟩
      · left
        refine ⟨heq, ?_⟩
        intro u hu
        cases u with
        | zero => simpa using not_lt.mp hd
        | succ u => simpa using hmin u (by simpa using hu)
      · right
        have hbq : b ≤ sqDist p q := not_lt.mp hd
        refine ⟨t + 1, by simpa using ht, ?_, ?_, ?_, ?_⟩
        · rw [heq]
          congr 1
          push_cast
          ring
        · simpa using hlt
        · intro u hu
          cases u with
          | zero => simpa using le_of_lt (lt_of_lt_of_le hlt hbq)
          | succ u => simpa using hmin u (by simpa using hu)
        · intro u hu
          cases u with
          | zero => simpa using lt_of_lt_of_le hlt hbq
          | succ u => simpa using hstrict u (by omega)

lemma nearestNeighbor_cons_min (p q : Point) (l : List Point)
    (hlen : ∀ r ∈ q :: l, p.length ≤ r.length) :
    ∃ t : ℕ, t < (q :: l).length ∧
      nearestNeighbor p ((q :: l).map some) = .ok (t : ℤ) ∧
      (∀ u, u < (q :: l).length →
        sqDist p ((q :: l).getD t []) ≤ sqDist p ((q :: l).getD u [])) ∧
      (∀ u, u < t →
        sqDist p ((q :: l).getD t []) < sqDist p ((q :: l).getD u [])) := by
  have hq : p.length ≤ q.length := hlen q (by simp)
  have hrest : ∀ r ∈ l, p.length ≤ r.length := fun r hr => hlen r (by simp [hr])
  have hstep : nearestNeighbor p ((q :: l).map some) =
      nnGo p (l.map some) 1 (some (sqDist p q)) 0 := by
    simp [nearestNeighbor, nnGo, distOf_eq_sqDist p q hq]
  rcases nnGo_first_min p l hrest 1 (sqDist p q) 0 with
    ⟨heq, hmin⟩ | ⟨t, ht, heq, hlt, hmin, hstrict⟩
  · refine ⟨0, by simp, by rw [hstep, heq]; norm_num, ?_,
      fun u hu => absurd hu (by omega)⟩
    intro u hu
    cases u with
    | zero => simp
    | succ u => simpa using hmin u (by simpa using hu)
  · refine ⟨t + 1, by simpa using ht, ?_, ?_, ?_⟩
    · rw [hstep, heq]
      congr 1
      push_cast
      ring
    · intro u hu
      cases u with
      | zero => simpa using le_of_lt hlt
      | succ u => simpa using hmin u (by simpa using hu)
    · intro u hu
      cases u with
      | zero => simpa using hlt
      | succ u => simpa using hstrict u (by omega)

/-- C6: `nearestNeighbor` returns the first index of minimal squared
Euclidean distance.  For every query point and non-empty candidate list of
the same channel count, the returned index `t` is in range, its distance is
minimal over all candidates, and every candidate before `t` is at strictly
larger distance — so ties are broken toward the lower index. -/
theorem nearestNeighbor_first_argmin (point : Point) (nbrs : List Point)
    (hne : nbrs ≠ []) (hch : ∀ q ∈ nbrs, q.length = point.length) :
    ∃ t : ℕ, t < nbrs.length ∧
      nearestNeighbor point (nbrs.map some) = .ok (t : ℤ) ∧
      (∀ u, u < nbrs.length →
        sqDist point (nbrs.getD t []) ≤ sqDist point (nbrs.getD u [])) ∧
      (∀ u, u < t →
        sqDist point (nbrs.getD t []) < sqDist point (nbrs.getD u [])) := by
  cases nbrs with
  | nil => exact absurd rfl hne
  | cons q l =>
    exact nearestNeighbor_cons_min point q l
      (fun r hr => le_of_eq (hch r hr).symm)

/-- C6, instantiated: two candidates at equal distance from the query;
the returned index is 0, the lower one. -/
theorem nearestNeighbor_first_argmin_witness :
    (([[1], [1]] : List Point) ≠ [] ∧
      ∀ q ∈ ([[1], [1]] : List Point), q.length = [(0 : ℚ)].length) ∧
      ∃ t : ℕ, t < ([[1], [1]] : List Point).length ∧
        nearestNeighbor [(0 : ℚ)] (([[1], [1]] : List Point).map some) =
          .ok (t : ℤ) ∧
        (∀ u, u < ([[1], [1]] : List Point).length →
          sqDist [(0 : ℚ)] (([[1], [1]] : List Point).getD t []) ≤
            sqDist [(0 : ℚ)] (([[1], [1]] : List Point).getD u [])) ∧
        (∀ u, u < t →
          sqDist [(0 : ℚ)] (([[1], [1]] : List Point).getD t []) <
            sqDist [(0 : ℚ)] (([[1], [1]] : List Point).getD u [])) :=
  ⟨⟨by decide, by decide⟩,
    nearestNeighbor_first_argmin [(0 : ℚ)] [[1], [1]] (by decide) (by decide)⟩

lemma foldl_set_length {α : Type} (f : List ℚ → α → List ℚ)
    (hf : ∀ rc a, (f rc a).length = rc.length) :
    ∀ (l : List α) (init : List ℚ), (l.foldl f init).length = init.length := by
  intro l
  induction l with
  | nil => intro init; rfl
  | cons a l ih =>
    intro init
    rw [List.foldl_cons, ih, hf]

lemma centroid_length (d0 : Point) (rest : List Point) :
    (centroid (d0 :: rest)).length = d0.length := by
  have houter : ∀ (rc : List ℚ) (ip : ℕ × List ℚ),
      (ip.2.enum.foldl
        (fun rc2 jp => rc2.set jp.1
          (rc2.getD jp.1 0 + (jp.2 - rc2.getD jp.1 0) / ((ip.1 : ℚ) + 1)))
        rc).length = rc.length :=
    fun rc ip =>
      foldl_set_length _ (fun rc2 jp => List.length_set rc2 jp.1 _) ip.2.enum rc
  rw [centroid, foldl_set_length _ houter, List.length_replicate]

lemma getD_mem_or_nil {α : Type} (l : List (List α)) (i : ℕ) :
    l.getD i [] ∈ l ∨ l.getD i [] = [] := by
  by_cases hi : i < l.length
  · left
    rw [List.getD_eq_get?, List.get?_eq_get hi]
    exact List.get_mem l i hi
  · right
    rw [List.getD_eq_get?, List.get?_eq_none.mpr (by omega)]
    rfl

lemma randomIndex_lt (seed n : ℕ) (hn : 0 < n) : (randomIndex seed n).1 < n := by
  have hmod : (seed * 9301 + 49297) % 233280 < 233280 :=
    Nat.mod_lt _ (by norm_num)
  have hv : ((((seed * 9301 + 49297) % 233280 : ℕ) : ℚ) / 233280) * (n : ℚ) <
      (n : ℚ) := by
    have h1 : (((seed * 9301 + 49297) % 233280 : ℕ) : ℚ) / 233280 < 1 := by
      rw [div_lt_one (by norm_num)]
      exact_mod_cast hmod
    calc (((seed * 9301 + 49297) % 233280 : ℕ) : ℚ) / 233280 * (n : ℚ)
        < 1 * (n : ℚ) :=
          mul_lt_mul_of_pos_right h1 (by exact_mod_cast hn)
      _ = (n : ℚ) := one_mul _
  have hfloor :
      ⌊(((seed * 9301 + 49297) % 233280 : ℕ) : ℚ) / 233280 * (n : ℚ)⌋ <
        (n : ℤ) := by
    apply Int.floor_lt.mpr
    exact_mod_cast hv
  simp only [randomIndex, seededRandom]
  omega

lemma assignGo_ok_mem (Q : Point → Prop) :
    ∀ (pts : List Point) (cents : List (Option Point))
      (cls r : List (List Point)),
      (∀ x ∈ pts, Q x) → (∀ cl ∈ cls, ∀ x ∈ cl, Q x) →
      assignGo pts cents cls = .ok r → ∀ cl ∈ r, ∀ x ∈ cl, Q x := by
  intro pts
  induction pts with
  | nil =>
    intro cents cls r _ hcls h
    simp only [assignGo] at h
    cases h
    exact hcls
  | cons pt pts ih =>
    intro cents cls r hpts hcls h
    rw [assignGo] at h
    split at h
    · cases h
    · split at h
      · refine ih _ _ _ (fun x hx => hpts x (by simp [hx])) ?_ h
        intro cl hcl x hx
        rcases List.mem_or_eq_of_mem_set hcl with hmem | rfl
        · exact hcls cl hmem x hx
        · rcases List.mem_append.mp hx with hx1 | hx2
          · rcases getD_mem_or_nil cls _ with hmem2 | hnil
            · exact hcls _ hmem2 x hx1
            · rw [hnil] at hx1
              simp at hx1
          · have hxpt : x = pt := by simpa using hx2
            exact hxpt ▸ hpts pt (by simp)
      · cases h

lemma updateGo_ok_channels (dataset : List Point) (C : ℕ)
    (hD : dataset ≠ []) (hC : ∀ x ∈ dataset, x.length = C) :
    ∀ (cls : List (List Point)) (olds : List (Option Point)) (seed : ℕ)
      (conv : Bool) (res : List (Option Point) × Bool × ℕ),
      (∀ cl ∈ cls, ∀ x ∈ cl, x ∈ dataset) →
      updateGo dataset cls olds seed conv = .ok res →
      ∀ c ∈ res.1, ∃ pt, c = some pt ∧ pt.length = C := by
  intro cls
  induction cls with
  | nil =>
    intro olds seed conv res _ h
    simp only [updateGo] at h
    cases h
    intro c hc
    simp at hc
  | cons cl cls ih =>
    intro olds seed conv res hmem h
    have htail : ∀ cl' ∈ cls, ∀ x ∈ cl', x ∈ dataset :=
      fun cl' hcl' => hmem cl' (by simp [hcl'])
    cases cl with
    | nil =>
      rw [updateGo] at h
      split at h
      · cases h
      · split at h
        · cases h
        · cases h
          intro c hc
          rcases List.mem_cons.mp hc with rfl | hc2
          · have hpos : 0 < dataset.length := List.length_pos.mpr hD
            have hlt := randomIndex_lt seed dataset.length hpos
            refine ⟨dataset.get ⟨(randomIndex seed dataset.length).1, hlt⟩,
              ?_, hC _ (List.get_mem dataset _ hlt)⟩
            simp [List.get?_eq_get hlt]
          · exact ih _ _ _ _ htail (by assumption) c hc2
    | cons c0 crest =>
      rw [updateGo] at h
      · split at h
        · cases h
        · split at h
          · cases h
          · cases h
            intro c hc
            rcases List.mem_cons.mp hc with rfl | hc2
            · refine ⟨centroid (c0 :: crest), rfl, ?_⟩
              rw [centroid_length]
              exact hC c0 (hmem (c0 :: crest) (by simp) c0 (by simp))
            · exact ih _ _ _ _ htail (by assumption) c hc2
      · simp

lemma kMeansGo_ok_channels (dataset : List Point) (k C : ℕ)
    (hD : dataset ≠ []) (hC : ∀ x ∈ dataset, x.length = C) :
    ∀ (fuel seed : ℕ) (cents : List (Option Point)) (p : List Point),
      kMeansGo dataset k fuel seed cents = some (.ok p) →
      ∀ c ∈ p, c.length = C := by
  intro fuel
  induction fuel with
  | zero =>
    intro seed cents p h
    simp [kMeansGo] at h
  | succ fuel ih =>
    intro seed cents p h
    rw [kMeansGo] at h
    cases hassign : assignGo dataset cents (List.replicate k []) with
    | error e =>
      simp only [hassign] at h
      cases h
    | ok clusters =>
      simp only [hassign] at h
      cases hupd : updateGo dataset clusters cents seed true with
      | error e =>
        simp only [hupd] at h
        cases h
      | ok res =>
        simp only [hupd] at h
        by_cases hcv : res.2.1 = true
        · rw [if_pos hcv] at h
          simp only [Option.some_inj] at h
          cases h
          have hclusters := assignGo_ok_mem (· ∈ dataset) dataset cents
            (List.replicate k []) clusters (fun x hx => hx)
            (fun cl hcl x hx => by
              rw [List.eq_of_mem_replicate hcl] at hx
              simp at hx)
            hassign
          have hupd2 := updateGo_ok_channels dataset C hD hC clusters cents
            seed true res hclusters hupd
          intro c hc
          rcases List.mem_map.mp hc with ⟨o, ho, rfl⟩
          rcases hupd2 o ho with ⟨pt, rfl, hlen⟩
          simpa using hlen
        · rw [if_neg hcv] at h
          exact ih _ _ _ h

/-- C5: palette shape.  For every dataset whose pixels all share channel
count `C` and every `k` with `1 ≤ k ≤ |D|`, a `kMeans` call that returns a
palette returns exactly `k` centroids, each with `C` channels (initial
centroids and reseeds are dataset points; updated centroids are running
means sized by their cluster's first member). -/
theorem kMeans_palette_shape (D : List Point) (k C fuel : ℕ) (p : List Point)
    (hC : ∀ x ∈ D, x.length = C) (hk1 : 1 ≤ k) (hk2 : k ≤ D.length)
    (hres : kMeans D k fuel = some (.ok p)) :
    p.length = k ∧ ∀ c ∈ p, c.length = C := by
  have hD : D ≠ [] := by
    intro hnil
    rw [hnil] at hk2
    simp at hk2
    omega
  exact ⟨kMeans_ok_length D k fuel p hres,
    kMeansGo_ok_channels D k C hD hC fuel _ _ p hres⟩

/-- C5, instantiated: the four-channel singleton dataset with `k = 1`. -/
theorem kMeans_palette_shape_witness :
    ((∀ x ∈ ([[0, 0, 0, 255]] : List Point), x.length = 4) ∧
      (1 : ℕ) ≤ 1 ∧ (1 : ℕ) ≤ ([[(0 : ℚ), 0, 0, 255]] : List Point).length) ∧
      ([[0, 0, 0, 255]] : List Point).length = 1 ∧
      ∀ c ∈ ([[(0 : ℚ), 0, 0, 255]] : List Point), c.length = 4 :=
  ⟨⟨by decide, le_refl 1, by decide⟩,
    kMeans_palette_shape [[0, 0, 0, 255]] 1 4 1 [[0, 0, 0, 255]]
      (by decide) (le_refl 1) (by decide) (by with_unfolding_all decide)⟩

lemma sqDist_nonneg (p q : Point) : 0 ≤ sqDist p q := by
  apply List.sum_nonneg
  intro x hx
  rcases List.mem_map.mp hx with ⟨ab, _, rfl⟩
  exact sq_nonneg _

lemma sqDist_self (q : Point) : sqDist q q = 0 := by
  induction q with
  | nil => rfl
  | cons a as ih =>
    simp only [sqDist, List.zip_cons_cons, List.map_cons, List.sum_cons,
      sub_self] at ih ⊢
    simpa using ih

lemma sqDist_eq_zero (p q : Point) (hlen : p.length = q.length)
    (h : sqDist p q = 0) : p = q := by
  induction p generalizing q with
  | nil =>
    cases q with
    | nil => rfl
    | cons b bs => simp at hlen
  | cons a as ih =>
    cases q with
    | nil => simp at hlen
    | cons b bs =>
      simp only [sqDist, List.zip_cons_cons, List.map_cons, List.sum_cons] at h
      have h1 : (0 : ℚ) ≤ (a - b) ^ 2 := sq_nonneg _
      have h2 : (0 : ℚ) ≤ sqDist as bs := sqDist_nonneg as bs
      have h3 : sqDist as bs =
          ((as.zip bs).map fun ab => (ab.1 - ab.2) ^ 2).sum := rfl
      rw [← h3] at h
      have hab : (a - b) ^ 2 = 0 := by linarith
      have habs : sqDist as bs = 0 := by linarith
      have ha : a = b := by
        have := pow_eq_zero_iff (n := 2) (by norm_num) |>.mp hab
        linarith [this]
      rw [ha, ih bs (by simpa using hlen) habs]

lemma toUint8Clamp_natCast (m : ℕ) (hm : m ≤ 255) :
    toUint8Clamp (m : ℚ) = m := by
  by_cases h0 : (m : ℚ) ≤ 0
  · have hm0 : m = 0 := by exact_mod_cast le_antisymm h0 (by positivity)
    rw [toUint8Clamp, if_pos h0, hm0]
  · rw [toUint8Clamp, if_neg h0]
    by_cases h255 : (255 : ℚ) ≤ (m : ℚ)
    · have hm255 : m = 255 := le_antisymm hm (by exact_mod_cast h255)
      rw [if_pos h255, hm255]
    · rw [if_neg h255]
      have hfl : ⌊(m : ℚ)⌋ = (m : ℤ) := Int.floor_natCast m
      rw [roundHalfEven]
      simp only [hfl]
      rw [if_pos (by push_cast; norm_num)]
      exact Int.toNat_natCast m

lemma range_map_eq_list (nc : ℕ) (q : Point) (hlen : q.length = nc)
    (f : ℕ → ℚ) (hf : ∀ j, j < nc → f j = q.getD j 0) :
    (List.range nc).map f = q := by
  apply List.ext_get
  · simp [hlen]
  · intro n h1 h2
    simp only [List.get_eq_getElem, List.getElem_map, List.getElem_range]
    rw [hf n (by simpa using h1), List.getD_eq_get?, List.get?_eq_get h2]
    rfl

lemma currentPixelOf_int (q : Point) (nc : ℕ) (hlen : q.length = nc)
    (hint : ∀ x ∈ q, ∃ m : ℕ, m ≤ 255 ∧ x = (m : ℚ)) :
    currentPixelOf q nc = q := by
  rw [currentPixelOf]
  apply range_map_eq_list nc q hlen
  intro j hj
  have hjq : j < q.length := by omega
  rw [List.get?_eq_get hjq]
  obtain ⟨m, hle, hm⟩ := hint (q.get ⟨j, hjq⟩) (List.get_mem q j hjq)
  have hgd : q.getD j 0 = q.get ⟨j, hjq⟩ := by
    rw [List.getD_eq_get?, List.get?_eq_get hjq]
    rfl
  rw [hgd, hm]
  simp [toUint8ClampOpt, toUint8Clamp_natCast m hle]

lemma quantized_write_int (nearest : Point) (nc : ℕ)
    (hlen : nearest.length = nc)
    (hint : ∀ x ∈ nearest, ∃ m : ℕ, m ≤ 255 ∧ x = (m : ℚ)) :
    ((List.range nc).map fun j =>
      if j < nearest.length then ((toUint8Clamp (nearest.getD j 0) : ℕ) : ℚ)
      else 0) = nearest := by
  apply range_map_eq_list nc nearest hlen
  intro j hj
  have hjq : j < nearest.length := by omega
  rw [if_pos hjq]
  obtain ⟨m, hle, hm⟩ := hint (nearest.get ⟨j, hjq⟩) (List.get_mem _ j hjq)
  have hgd : nearest.getD j 0 = nearest.get ⟨j, hjq⟩ := by
    rw [List.getD_eq_get?, List.get?_eq_get hjq]
    rfl
  rw [hgd, hm, toUint8Clamp_natCast m hle]

lemma quantizePixel_ok_palette (colors : List Point) (nc : ℕ) (px out : Point)
    (hcol : ∀ c ∈ colors, c.length = nc ∧
      ∀ x ∈ c, ∃ m : ℕ, m ≤ 255 ∧ x = (m : ℚ))
    (h : quantizePixel (some colors) colors nc px = .ok out) :
    ∃ t, t < colors.length ∧ out = colors.getD t [] := by
  cases colors with
  | nil =>
    rw [quantizePixel] at h
    simp only [List.map_nil,
      show nearestNeighbor (currentPixelOf px nc) ([] : List (Option Point)) =
        .ok (-1) from rfl] at h
    rw [if_neg (show ¬((0 : ℤ) ≤ -1) by decide)] at h
    simp at h
  | cons c0 cs =>
    have hplen : ∀ r ∈ c0 :: cs, (currentPixelOf px nc).length ≤ r.length := by
      intro r hr
      have hr1 := (hcol r hr).1
      simp [currentPixelOf, hr1]
    obtain ⟨t, ht, heq, hmin, hstrict⟩ :=
      nearestNeighbor_cons_min (currentPixelOf px nc) c0 cs hplen
    rw [quantizePixel] at h
    simp only [heq] at h
    rw [if_pos (show (0 : ℤ) ≤ (t : ℤ) from Int.natCast_nonneg t)] at h
    rw [Int.toNat_natCast] at h
    simp only [List.get?_eq_get ht, Except.ok.injEq] at h
    refine ⟨t, ht, ?_⟩
    rw [← h]
    have hmem : (c0 :: cs).get ⟨t, ht⟩ ∈ c0 :: cs := List.get_mem _ t ht
    obtain ⟨hl, hi⟩ := hcol _ hmem
    rw [quantized_write_int _ nc hl hi]
    rw [List.getD_eq_get?, List.get?_eq_get ht]
    rfl

lemma quantizePixel_palette_fixed (colors : List Point) (nc : ℕ) (t : ℕ)
    (hcol : ∀ c ∈ colors, c.length = nc ∧
      ∀ x ∈ c, ∃ m : ℕ, m ≤ 255 ∧ x = (m : ℚ))
    (ht : t < colors.length) :
    quantizePixel (some colors) colors nc (colors.getD t []) =
      .ok (colors.getD t []) := by
  cases colors with
  | nil => simp at ht
  | cons c0 cs =>
    have hq : (c0 :: cs).getD t [] = (c0 :: cs).get ⟨t, ht⟩ := by
      rw [List.getD_eq_get?, List.get?_eq_get ht]
      rfl
    have hqmem : (c0 :: cs).getD t [] ∈ c0 :: cs := by
      rw [hq]
      exact List.get_mem _ t ht
    obtain ⟨hqlen, hqint⟩ := hcol _ hqmem
    have hcp : currentPixelOf ((c0 :: cs).getD t []) nc = (c0 :: cs).getD t [] :=
      currentPixelOf_int _ nc hqlen hqint
    have hplen : ∀ r ∈ c0 :: cs,
        (currentPixelOf ((c0 :: cs).getD t []) nc).length ≤ r.length := by
      intro r hr
      have hr1 := (hcol r hr).1
      simp [currentPixelOf, hr1]
    obtain ⟨j, hj, heq, hmin, _⟩ :=
      nearestNeighbor_cons_min (currentPixelOf ((c0 :: cs).getD t []) nc) c0 cs
        hplen
    have hjmem : (c0 :: cs).getD j [] ∈ c0 :: cs := by
      rw [List.getD_eq_get?, List.get?_eq_get hj]
      exact List.get_mem _ j hj
    have hjlen := (hcol _ hjmem).1
    have hzero : sqDist ((c0 :: cs).getD t []) ((c0 :: cs).getD j []) = 0 := by
      have hle := hmin t ht
      rw [hcp] at hle
      have hself : sqDist ((c0 :: cs).getD t []) ((c0 :: cs).getD t []) = 0 :=
        sqDist_self _
      have hnn := sqDist_nonneg ((c0 :: cs).getD t []) ((c0 :: cs).getD j [])
      linarith
    have hjq : (c0 :: cs).getD j [] = (c0 :: cs).getD t [] :=
      (sqDist_eq_zero _ _ (by rw [hqlen, hjlen]) hzero).symm
    rw [quantizePixel]
    simp only [heq]
    rw [if_pos (show (0 : ℤ) ≤ (j : ℤ) from Int.natCast_nonneg j)]
    rw [Int.toNat_natCast]
    simp only [List.get?_eq_get hj]
    have hgetj : (c0 :: cs).get ⟨j, hj⟩ = (c0 :: cs).getD j [] := by
      rw [List.getD_eq_get?, List.get?_eq_get hj]
      rfl
    rw [hgetj, hjq]
    rw [quantized_write_int _ nc hqlen hqint]

lemma quantizeGo_ok_palette (colors : List Point) (nc : ℕ)
    (hcol : ∀ c ∈ colors, c.length = nc ∧
      ∀ x ∈ c, ∃ m : ℕ, m ≤ 255 ∧ x = (m : ℚ)) :
    ∀ (l r : List Point), quantizeGo (some colors) colors nc l = .ok r →
      ∀ y ∈ r, ∃ t, t < colors.length ∧ y = colors.getD t [] := by
  intro l
  induction l with
  | nil =>
    intro r h
    simp only [quantizeGo] at h
    cases h
    intro y hy
    simp at hy
  | cons px rest ih =>
    intro r h
    rw [quantizeGo] at h
    split at h
    · cases h
    · split at h
      · cases h
      · cases h
        intro y hy
        rcases List.mem_cons.mp hy with rfl | hy2
        · exact quantizePixel_ok_palette colors nc px _ hcol (by assumption)
        · exact ih _ (by assumption) y hy2

lemma quantizeGo_fixed (colors : List Point) (nc : ℕ) :
    ∀ l : List Point,
      (∀ y ∈ l, quantizePixel (some colors) colors nc y = .ok y) →
      quantizeGo (some colors) colors nc l = .ok l := by
  intro l
  induction l with
  | nil => intro _; rfl
  | cons y rest ih =>
    intro hfix
    rw [quantizeGo]
    simp only [hfix y (by simp), ih (fun z hz => hfix z (by simp [hz]))]

/-- C8 counterexample: quantization is not idempotent in general.  With
the two-channel palette `[[0.4, 0.4], [0, 0.55]]` (bound both as the
`colors` parameter and as the enclosing `centroids`), the pixel `(1, 0)`
quantizes to `(0, 0)` via centroid 0, but re-quantizing `(0, 0)` selects
centroid 1 (distance 0.3025 < 0.32) and rounds to `(0, 1)`. -/
theorem quantize_not_idempotent :
    quantize (some [[2/5, 2/5], [0, 11/20]]) [[1, 0]] 2
        [[2/5, 2/5], [0, 11/20]] = .ok [[0, 0]] ∧
      quantize (some [[2/5, 2/5], [0, 11/20]]) [[0, 0]] 2
        [[2/5, 2/5], [0, 11/20]] = .ok [[0, 1]] ∧
      ([[(0 : ℚ), 1]] : List Point) ≠ [[0, 0]] :=
  ⟨by with_unfolding_all decide, by with_unfolding_all decide,
    by with_unfolding_all decide⟩

/-- C8 amended: quantization is idempotent on integer palettes.  When
every palette entry has `nc` integer channel values in `[0, 255]` (and the
enclosing `centroids` is the same palette), every pixel produced by
`quantize` is exactly a palette entry, and re-quantizing maps it to an
entry at squared distance 0, i.e. to its own value — so the second pass
returns the first pass's raster unchanged. -/
theorem quantize_idempotent_integer_palette (colors : List Point) (nc : ℕ)
    (img q1 q2 : List Point)
    (hcol : ∀ c ∈ colors, c.length = nc ∧
      ∀ x ∈ c, ∃ m : ℕ, m ≤ 255 ∧ x = (m : ℚ))
    (h1 : quantize (some colors) img nc colors = .ok q1)
    (h2 : quantize (some colors) q1 nc colors = .ok q2) :
    q2 = q1 := by
  have hmem := quantizeGo_ok_palette colors nc hcol img q1 h1
  have hfix : ∀ y ∈ q1, quantizePixel (some colors) colors nc y = .ok y := by
    intro y hy
    obtain ⟨t, ht, rfl⟩ := hmem y hy
    exact quantizePixel_palette_fixed colors nc t hcol ht
  have hq1 := quantizeGo_fixed colors nc q1 hfix
  rw [quantize, hq1] at h2
  injection h2 with h3
  exact h3.symm

lemma palette_bytes_example :
    ∀ c ∈ ([[0, 0, 0, 255]] : List Point), c.length = 4 ∧
      ∀ x ∈ c, ∃ m : ℕ, m ≤ 255 ∧ x = (m : ℚ) := by
  intro c hc
  simp only [List.mem_singleton] at hc
  subst hc
  refine ⟨rfl, ?_⟩
  intro x hx
  simp only [List.mem_cons, List.not_mem_nil, or_false] at hx
  rcases hx with rfl | rfl | rfl | rfl
  · exact ⟨0, by norm_num, by norm_num⟩
  · exact ⟨0, by norm_num, by norm_num⟩
  · exact ⟨0, by norm_num, by norm_num⟩
  · exact ⟨255, by norm_num, by norm_num⟩

/-- C8 amended, instantiated on the integer palette `[[0,0,0,255]]`. -/
theorem quantize_idempotent_integer_palette_witness :
    (∀ c ∈ ([[0, 0, 0, 255]] : List Point), c.length = 4 ∧
      ∀ x ∈ c, ∃ m : ℕ, m ≤ 255 ∧ x = (m : ℚ)) ∧
      quantize (some [[0, 0, 0, 255]]) [[5, 5, 5, 5]] 4 [[0, 0, 0, 255]] =
        .ok [[0, 0, 0, 255]] ∧
      quantize (some [[0, 0, 0, 255]]) [[0, 0, 0, 255]] 4 [[0, 0, 0, 255]] =
        .ok [[0, 0, 0, 255]] ∧
      ([[(0 : ℚ), 0, 0, 255]] : List Point) = [[0, 0, 0, 255]] :=
  ⟨palette_bytes_example, by with_unfolding_all decide,
    by with_unfolding_all decide,
    quantize_idempotent_integer_palette [[0, 0, 0, 255]] 4 [[5, 5, 5, 5]]
      [[0, 0, 0, 255]] [[0, 0, 0, 255]] palette_bytes_example
      (by with_unfolding_all decide) (by with_unfolding_all decide)⟩

lemma randomIndex_eq (s : ℕ) : randomIndex s 3 = (nxt s * 3 / 233280, nxt s) := by
  have h1 : ((nxt s : ℚ) / 233280) * 3 = ((nxt s * 3 : ℕ) : ℚ) / ((233280 : ℕ) : ℚ) := by
    push_cast
    ring
  have h2 : (⌊((nxt s : ℚ) / 233280) * 3⌋).toNat = nxt s * 3 / 233280 := by
    rw [h1, Rat.floor_natCast_div_natCast, ← Int.natCast_div, Int.toNat_natCast]
  simp only [randomIndex, seededRandom]
  exact Prod.ext h2 rfl

lemma nxt_lt (s : ℕ) : nxt s < 233280 := Nat.mod_lt _ (by norm_num)

lemma nxtBin_lt (s : ℕ) : nxt s * 3 / 233280 < 3 := by
  have h := nxt_lt s
  omega

lemma binRun_length : ∀ (m s : ℕ), (binRun m s).1.length = m := by
  intro m
  induction m with
  | zero => intro s; rfl
  | succ m ih =>
    intro s
    simp only [binRun, List.length_cons, ih]

lemma binRun_lt : ∀ (m s : ℕ), ∀ b ∈ (binRun m s).1, b < 3 := by
  intro m
  induction m with
  | zero => intro s b hb; simp [binRun] at hb
  | succ m ih =>
    intro s b hb
    simp only [binRun, List.mem_cons] at hb
    rcases hb with rfl | hb
    · exact nxtBin_lt s
    · exact ih _ b hb

lemma distOf_some (p q : Point) :
    distOf p (some q) =
      .ok (if p.length ≤ q.length then some (sqDist p q) else none) := by
  cases p with
  | nil =>
    have h0 : sqDist [] q = 0 := rfl
    simp [distOf, h0]
  | cons a as =>
    simp only [distOf]
    split <;> rfl

lemma nnGo_zero_keep (p : Point) :
    ∀ (rest : List Point) (i bi : ℤ),
      nnGo p (rest.map some) i (some 0) bi = .ok bi := by
  intro rest
  induction rest with
  | nil => intro i bi; rfl
  | cons q l ih =>
    intro i bi
    rw [List.map_cons, nnGo, distOf_some]
    by_cases hlen : p.length ≤ q.length
    · rw [if_pos hlen]
      dsimp only
      rw [if_neg (not_lt.mpr (sqDist_nonneg p q))]
      exact ih (i + 1) bi
    · rw [if_neg hlen]
      exact ih (i + 1) bi

lemma map_toC (w : List ℕ) :
    w.map toC = (w.map fun b => D3.getD b []).map some := by
  rw [List.map_map]
  rfl

lemma nn_D3_0 (w : List ℕ) :
    nearestNeighbor [(0 : ℚ)] (stateOf w) = .ok 0 := by
  have hd0 : distOf [(0 : ℚ)] (some [0]) = .ok (some 0) := by
    with_unfolding_all decide
  have hd3 : distOf [(0 : ℚ)] (some [3]) = .ok (some 9) := by
    with_unfolding_all decide
  have hd1 : distOf [(0 : ℚ)] (some [1]) = .ok (some 1) := by
    with_unfolding_all decide
  show nnGo [(0 : ℚ)] (some [0] :: some [3] :: some [1] :: w.map toC)
    0 none (-1) = .ok 0
  rw [nnGo]
  simp only [hd0]
  rw [nnGo]
  simp only [hd3]
  rw [if_neg (by norm_num : ¬((9 : ℚ) < 0))]
  rw [nnGo]
  simp only [hd1]
  rw [if_neg (by norm_num : ¬((1 : ℚ) < 0))]
  rw [map_toC]
  exact nnGo_zero_keep [(0 : ℚ)] _ _ 0

lemma nn_D3_1 (w : List ℕ) :
    nearestNeighbor [(1 : ℚ)] (stateOf w) = .ok 2 := by
  have hd0 : distOf [(1 : ℚ)] (some [0]) = .ok (some 1) := by
    with_unfolding_all decide
  have hd3 : distOf [(1 : ℚ)] (some [3]) = .ok (some 4) := by
    with_unfolding_all decide
  have hd1 : distOf [(1 : ℚ)] (some [1]) = .ok (some 0) := by
    with_unfolding_all decide
  show nnGo [(1 : ℚ)] (some [0] :: some [3] :: some [1] :: w.map toC)
    0 none (-1) = .ok 2
  rw [nnGo]
  simp only [hd0]
  rw [nnGo]
  simp only [hd3]
  rw [if_neg (by norm_num : ¬((4 : ℚ) < 1))]
  rw [nnGo]
  simp only [hd1]
  rw [if_pos (by norm_num : (0 : ℚ) < 1)]
  rw [map_toC, nnGo_zero_keep]
  norm_num

lemma nn_D3_3 (w : List ℕ) :
    nearestNeighbor [(3 : ℚ)] (stateOf w) = .ok 1 := by
  have hd0 : distOf [(3 : ℚ)] (some [0]) = .ok (some 9) := by
    with_unfolding_all decide
  have hd3 : distOf [(3 : ℚ)] (some [3]) = .ok (some 0) := by
    with_unfolding_all decide
  have hd1 : distOf [(3 : ℚ)] (some [1]) = .ok (some 4) := by
    with_unfolding_all decide
  show nnGo [(3 : ℚ)] (some [0] :: some [3] :: some [1] :: w.map toC)
    0 none (-1) = .ok 1
  rw [nnGo]
  simp only [hd0]
  rw [nnGo]
  simp only [hd3]
  rw [if_pos (by norm_num : (0 : ℚ) < 9)]
  rw [nnGo]
  simp only [hd1]
  rw [if_neg (by norm_num : ¬((4 : ℚ) < 0))]
  rw [map_toC, nnGo_zero_keep]
  norm_num

lemma assign_D3 (w : List ℕ) :
    assignGo D3 (stateOf w) (List.replicate 15 []) = .ok clusters3 := by
  show assignGo ([(0 : ℚ)] :: [(1 : ℚ)] :: [(3 : ℚ)] :: [])
    (stateOf w) (List.replicate 15 []) = .ok clusters3
  rw [assignGo]
  simp only [nn_D3_0 w]
  rw [if_pos (by decide)]
  show assignGo ([(1 : ℚ)] :: [(3 : ℚ)] :: []) (stateOf w)
    [[[0]], [], [], [], [], [], [], [], [], [], [], [], [], [], []] =
      .ok clusters3
  rw [assignGo]
  simp only [nn_D3_1 w]
  rw [if_pos (by decide)]
  show assignGo ([(3 : ℚ)] :: []) (stateOf w)
    [[[0]], [], [[1]], [], [], [], [], [], [], [], [], [], [], [], []] =
      .ok clusters3
  rw [assignGo]
  simp only [nn_D3_3 w]
  rw [if_pos (by decide)]
  show assignGo [] (stateOf w)
    [[[0]], [[3]], [[1]], [], [], [], [], [], [], [], [], [], [], [], []] =
      .ok clusters3
  rw [assignGo]
  rfl

lemma get?_D3 (i : ℕ) (hi : i < 3) : D3.get? i = toC i := by
  interval_cases i <;> rfl

lemma isArrayEqual_toC :
    ∀ i, i < 3 → ∀ j, j < 3 →
      isArrayEqual (D3.getD i []) (D3.getD j []) = (i == j) := by
  with_unfolding_all decide

lemma list_beq_cons (a b : ℕ) (l l2 : List ℕ) :
    ((a :: l) == (b :: l2)) = ((a == b) && (l == l2)) := rfl

lemma D3_length : D3.length = 3 := rfl

lemma updateGo_reseed :
    ∀ (m : ℕ) (w : List ℕ) (s : ℕ) (conv : Bool), w.length = m →
      (∀ x ∈ w, x < 3) →
      updateGo D3 (List.replicate m []) (w.map toC) s conv =
        .ok ((binRun m s).1.map toC,
          conv && ((binRun m s).1 == w), (binRun m s).2) := by
  intro m
  induction m with
  | zero =>
    intro w s conv hw _
    obtain rfl : w = [] := List.length_eq_zero.mp hw
    simp [updateGo, binRun]
  | succ m ih =>
    intro w s conv hw hb
    obtain ⟨b, w', rfl⟩ : ∃ b w', w = b :: w' := by
      cases w with
      | nil => simp at hw
      | cons b w' => exact ⟨b, w', rfl⟩
    have hw' : w'.length = m := by simpa using hw
    have hb0 : b < 3 := hb b (by simp)
    have hb' : ∀ x ∈ w', x < 3 := fun x hx => hb x (by simp [hx])
    rw [List.replicate_succ, List.map_cons, updateGo]
    simp only [D3_length, randomIndex_eq]
    rw [get?_D3 _ (nxtBin_lt s)]
    simp only [List.headD_cons, List.tail_cons]
    have heqc : isArrayEqualJs (toC (nxt s * 3 / 233280)) (toC b) =
        .ok ((nxt s * 3 / 233280) == b) := by
      simp only [toC, isArrayEqualJs]
      rw [isArrayEqual_toC _ (nxtBin_lt s) _ hb0]
    cases conv with
    | true =>
      rw [if_pos rfl]
      simp only [heqc]
      simp only [ih w' (nxt s) ((nxt s * 3 / 233280) == b) hw' hb']
      simp only [binRun, List.map_cons, list_beq_cons, Bool.true_and]
    | false =>
      rw [if_neg (by simp)]
      simp only [ih w' (nxt s) false hw' hb']
      simp only [binRun, List.map_cons, list_beq_cons, Bool.false_and]

/-! The divergence proof for claim C2: the update step on the diverging
state, the one-iteration step of the loop, and the pure-ℕ mirror of the
reseed-window dynamics checked around its full cycle. -/

/-- One non-empty-cluster slot of the update step, with the computed
centroid and the recursive result abstract, so that only variable-sized
terms reach the kernel. -/
lemma updateGo_slot (c p : Point) (cl : List Point)
    (cls : List (List Point)) (olds : List (Option Point)) (s : ℕ)
    (b b2 : Bool) (L : List (Option Point)) (s2 : ℕ)
    (hcent : centroid (p :: cl) = c)
    (hconv : isArrayEqualJs (some c) (olds.headD none) = .ok b)
    (hrec : updateGo D3 cls olds.tail s b = .ok (L, b2, s2)) :
    updateGo D3 ((p :: cl) :: cls) olds s true =
      .ok (some c :: L, b2, s2) := by
  rw [updateGo]
  · rw [if_pos rfl, hcent]
    simp only [hconv, hrec]
  · simp

/-- The update step on the diverging state, slot 3 (`[[1]]`) and the
twelve reseeded slots. -/
lemma updateGo_D3_c (w : List ℕ) (s : ℕ) (hw : w.length = 12)
    (hb : ∀ x ∈ w, x < 3) :
    updateGo D3 ([[1]] :: List.replicate 12 []) (some [1] :: w.map toC) s
      true =
      .ok (some [1] :: (binRun 12 s).1.map toC,
        ((binRun 12 s).1 == w), (binRun 12 s).2) := by
  have hcent : centroid [[(1 : ℚ)]] = [1] := by with_unfolding_all rfl
  have hconv : isArrayEqualJs (some [(1 : ℚ)])
      ((some [(1 : ℚ)] :: w.map toC).headD none) = .ok true := by
    rw [List.headD_cons]
    with_unfolding_all rfl
  have hrec : updateGo D3 (List.replicate 12 [])
      ((some [(1 : ℚ)] :: w.map toC).tail) s true =
      .ok ((binRun 12 s).1.map toC,
        ((binRun 12 s).1 == w), (binRun 12 s).2) := by
    rw [List.tail_cons, updateGo_reseed 12 w s true hw hb, Bool.true_and]
  exact updateGo_slot [1] [1] [] (List.replicate 12 [])
    (some [1] :: w.map toC) s true ((binRun 12 s).1 == w)
    ((binRun 12 s).1.map toC) (binRun 12 s).2 hcent hconv hrec

/-- The update step on the diverging state, slots 2 and down (`[[3]]`,
`[[1]]`, the reseeded slots). -/
lemma updateGo_D3_b (w : List ℕ) (s : ℕ) (hw : w.length = 12)
    (hb : ∀ x ∈ w, x < 3) :
    updateGo D3 ([[3]] :: [[1]] :: List.replicate 12 [])
      (some [3] :: some [1] :: w.map toC) s true =
      .ok (some [3] :: some [1] :: (binRun 12 s).1.map toC,
        ((binRun 12 s).1 == w), (binRun 12 s).2) := by
  have hcent : centroid [[(3 : ℚ)]] = [3] := by with_unfolding_all rfl
  have hconv : isArrayEqualJs (some [(3 : ℚ)])
      ((some [(3 : ℚ)] :: some [(1 : ℚ)] :: w.map toC).headD none) =
      .ok true := by
    rw [List.headD_cons]
    with_unfolding_all rfl
  have hrec : updateGo D3 ([[1]] :: List.replicate 12 [])
      ((some [(3 : ℚ)] :: some [(1 : ℚ)] :: w.map toC).tail) s true =
      .ok (some [1] :: (binRun 12 s).1.map toC,
        ((binRun 12 s).1 == w), (binRun 12 s).2) := by
    rw [List.tail_cons]
    exact updateGo_D3_c w s hw hb
  exact updateGo_slot [3] [3] [] ([[1]] :: List.replicate 12 [])
    (some [3] :: some [1] :: w.map toC) s true ((binRun 12 s).1 == w)
    (some [1] :: (binRun 12 s).1.map toC) (binRun 12 s).2 hcent hconv hrec

/-- The full update step on the diverging state: the three stable slots
keep their centroids, the convergence flag degenerates to the window
comparison, and the twelve empty slots are redrawn. -/
lemma updateGo_D3 (w : List ℕ) (s : ℕ) (hw : w.length = 12)
    (hb : ∀ x ∈ w, x < 3) :
    updateGo D3 clusters3 (stateOf w) s true =
      .ok (stateOf (binRun 12 s).1,
        ((binRun 12 s).1 == w), (binRun 12 s).2) := by
  show updateGo D3 ([[0]] :: [[3]] :: [[1]] :: List.replicate 12 [])
    (some [0] :: some [3] :: some [1] :: w.map toC) s true =
    .ok (some [0] :: some [3] :: some [1] :: (binRun 12 s).1.map toC,
      ((binRun 12 s).1 == w), (binRun 12 s).2)
  have hcent : centroid [[(0 : ℚ)]] = [0] := by with_unfolding_all rfl
  have hconv : isArrayEqualJs (some [(0 : ℚ)])
      ((some [(0 : ℚ)] :: some [(3 : ℚ)] :: some [(1 : ℚ)] ::
        w.map toC).headD none) = .ok true := by
    rw [List.headD_cons]
    with_unfolding_all rfl
  have hrec : updateGo D3 ([[3]] :: [[1]] :: List.replicate 12 [])
      ((some [(0 : ℚ)] :: some [(3 : ℚ)] :: some [(1 : ℚ)] ::
        w.map toC).tail) s true =
      .ok (some [3] :: some [1] :: (binRun 12 s).1.map toC,
        ((binRun 12 s).1 == w), (binRun 12 s).2) := by
    rw [List.tail_cons]
    exact updateGo_D3_b w s hw hb
  exact updateGo_slot [0] [0] []
    ([[3]] :: [[1]] :: List.replicate 12 [])
    (some [0] :: some [3] :: some [1] :: w.map toC) s true
    ((binRun 12 s).1 == w)
    (some [3] :: some [1] :: (binRun 12 s).1.map toC) (binRun 12 s).2
    hcent hconv hrec

/-- One loop iteration with the assignment and a non-converged update
result abstract. -/
lemma kMeansGo_step_gen (fuel s s2 : ℕ) (st L : List (Option Point))
    (cls : List (List Point))
    (hassign : assignGo D3 st (List.replicate 15 []) = .ok cls)
    (hupd : updateGo D3 cls st s true = .ok (L, false, s2)) :
    kMeansGo D3 15 (fuel + 1) s st = kMeansGo D3 15 fuel s2 L := by
  rw [kMeansGo]
  simp only [hassign, hupd]
  rw [if_neg (by simp)]

/-- One full loop iteration on the diverging state, when the reseed
window does not repeat: the state advances to the freshly drawn window. -/
lemma kMeansGo_step (w : List ℕ) (s fuel : ℕ) (hw : w.length = 12)
    (hb : ∀ x ∈ w, x < 3) (hne : ((binRun 12 s).1 == w) = false) :
    kMeansGo D3 15 (fuel + 1) s (stateOf w) =
      kMeansGo D3 15 fuel (binRun 12 s).2 (stateOf (binRun 12 s).1) := by
  have hupd := updateGo_D3 w s hw hb
  rw [hne] at hupd
  exact kMeansGo_step_gen fuel s (binRun 12 s).2 (stateOf w)
    (stateOf (binRun 12 s).1) clusters3 (assign_D3 w) hupd

/-- Successor step of the window dynamics below convergence. -/
lemma iterState_succ (n s : ℕ) (w : List ℕ)
    (hne : ((binRun 12 s).1 == w) = false) :
    iterState (n + 1) s w = iterState n (binRun 12 s).2 (binRun 12 s).1 := by
  simp only [iterState]
  rw [if_neg (by simp [hne])]

/-- Successor step of the window dynamics at convergence. -/
lemma iterState_succ_conv (n s : ℕ) (w : List ℕ)
    (he : ((binRun 12 s).1 == w) = true) :
    iterState (n + 1) s w = none := by
  simp only [iterState]
  rw [if_pos he]

/-- Splitting the window dynamics over a sum of step counts. -/
lemma iterState_add (a : ℕ) : ∀ (b s : ℕ) (w : List ℕ),
    iterState (a + b) s w =
      (iterState a s w).bind fun r => iterState b r.1 r.2 := by
  induction a with
  | zero =>
    intro b s w
    rw [Nat.zero_add]
    rfl
  | succ a ih =>
    intro b s w
    rw [Nat.add_right_comm]
    cases h : ((binRun 12 s).1 == w) with
    | true =>
      rw [iterState_succ_conv _ _ _ h, iterState_succ_conv _ _ _ h]
      rfl
    | false =>
      rw [iterState_succ _ _ _ h, ih, iterState_succ _ _ _ h]

/-- Chaining two exact runs of the window dynamics. -/
lemma iterState_chain (a b n s s1 sf : ℕ) (w w1 wf : List ℕ)
    (hn : n = a + b)
    (h1 : iterState a s w = some (s1, w1))
    (h2 : iterState b s1 w1 = some (sf, wf)) :
    iterState n s w = some (sf, wf) := by
  subst hn
  rw [iterState_add, h1]
  exact h2

set_option maxRecDepth 2000000 in
set_option maxHeartbeats 16000000 in
/-- Segment 0 of the window-dynamics cycle, checked by kernel
evaluation. -/
lemma iterChunk0 :
    iterState 540 139875 [2, 2, 0, 1, 2, 2, 1, 0, 2, 1, 0, 1] =
      some (29715, [1, 0, 1, 0, 0, 1, 1, 1, 0, 1, 1, 0]) := by
  with_unfolding_all rfl

set_option maxRecDepth 2000000 in
set_option maxHeartbeats 16000000 in
/-- Segment 1 of the window-dynamics cycle, checked by kernel
evaluation. -/
lemma iterChunk1 :
    iterState 540 29715 [1, 0, 1, 0, 0, 1, 1, 1, 0, 1, 1, 0] =
      some (152835, [1, 0, 0, 0, 0, 0, 0, 1, 2, 1, 2, 1]) := by
  with_unfolding_all rfl

set_option maxRecDepth 2000000 in
set_option maxHeartbeats 16000000 in
/-- Segment 2 of the window-dynamics cycle, checked by kernel
evaluation. -/
lemma iterChunk2 :
    iterState 540 152835 [1, 0, 0, 0, 0, 0, 0, 1, 2, 1, 2, 1] =
      some (42675, [0, 1, 1, 2, 1, 1, 0, 2, 0, 0, 2, 0]) := by
  with_unfolding_all rfl

set_option maxRecDepth 2000000 in
set_option maxHeartbeats 16000000 in
/-- Segment 3 of the window-dynamics cycle, checked by kernel
evaluation. -/
lemma iterChunk3 :
    iterState 540 42675 [0, 1, 1, 2, 1, 1, 0, 2, 0, 0, 2, 0] =
      some (165795, [0, 1, 0, 2, 1, 0, 2, 2, 2, 0, 0, 2]) := by
  with_unfolding_all rfl

set_option maxRecDepth 2000000 in
set_option maxHeartbeats 16000000 in
/-- Segment 4 of the window-dynamics cycle, checked by kernel
evaluation. -/
lemma iterChunk4 :
    iterState 540 165795 [0, 1, 0, 2, 1, 0, 2, 2, 2, 0, 0, 2] =
      some (55635, [0, 2, 2, 2, 2, 1, 2, 0, 0, 2, 0, 0]) := by
  with_unfolding_all rfl

set_option maxRecDepth 2000000 in
set_option maxHeartbeats 16000000 in
/-- Segment 5 of the window-dynamics cycle, checked by kernel
evaluation. -/
lemma iterChunk5 :
    iterState 540 55635 [0, 2, 2, 2, 2, 1, 2, 0, 0, 2, 0, 0] =
      some (178755, [2, 2, 0, 1, 0, 0, 2, 1, 2, 2, 1, 2]) := by
  with_unfolding_all rfl

set_option maxRecDepth 2000000 in
set_option maxHeartbeats 16000000 in
/-- Segment 6 of the window-dynamics cycle, checked by kernel
evaluation. -/
lemma iterChunk6 :
    iterState 540 178755 [2, 2, 0, 1, 0, 0, 2, 1, 2, 2, 1, 2] =
      some (68595, [2, 0, 2, 1, 0, 1, 1, 1, 1, 2, 1, 0]) := by
  with_unfolding_all rfl

set_option maxRecDepth 2000000 in
set_option maxHeartbeats 16000000 in
/-- Segment 7 of the window-dynamics cycle, checked by kernel
evaluation. -/
lemma iterChunk7 :
    iterState 540 68595 [2, 0, 2, 1, 0, 1, 1, 1, 1, 2, 1, 0] =
      some (191715, [1, 1, 0, 0, 1, 0, 1, 2, 2, 1, 2, 2]) := by
  with_unfolding_all rfl

set_option maxRecDepth 2000000 in
set_option maxHeartbeats 16000000 in
/-- Segment 8 of the window-dynamics cycle, checked by kernel
evaluation. -/
lemma iterChunk8 :
    iterState 540 191715 [1, 1, 0, 0, 1, 0, 1, 2, 2, 1, 2, 2] =
      some (81555, [1, 1, 2, 0, 1, 2, 0, 2, 1, 1, 0, 1]) := by
  with_unfolding_all rfl

set_option maxRecDepth 2000000 in
set_option maxHeartbeats 16000000 in
/-- Segment 9 of the window-dynamics cycle, checked by kernel
evaluation. -/
lemma iterChunk9 :
    iterState 540 81555 [1, 1, 2, 0, 1, 2, 0, 2, 1, 1, 0, 1] =
      some (204675, [1, 2, 1, 2, 2, 0, 0, 0, 2, 0, 0, 2]) := by
  with_unfolding_all rfl

set_option maxRecDepth 2000000 in
set_option maxHeartbeats 16000000 in
/-- Segment 10 of the window-dynamics cycle, checked by kernel
evaluation. -/
lemma iterChunk10 :
    iterState 540 204675 [1, 2, 1, 2, 2, 0, 0, 0, 2, 0, 0, 2] =
      some (94515, [0, 2, 2, 2, 2, 2, 0, 1, 1, 0, 1, 1]) := by
  with_unfolding_all rfl

set_option maxRecDepth 2000000 in
set_option maxHeartbeats 16000000 in
/-- Segment 11 of the window-dynamics cycle, checked by kernel
evaluation. -/
lemma iterChunk11 :
    iterState 540 94515 [0, 2, 2, 2, 2, 2, 0, 1, 1, 0, 1, 1] =
      some (217635, [0, 0, 1, 2, 0, 0, 2, 1, 0, 2, 1, 2]) := by
  with_unfolding_all rfl

set_option maxRecDepth 2000000 in
set_option maxHeartbeats 16000000 in
/-- Segment 12 of the window-dynamics cycle, checked by kernel
evaluation. -/
lemma iterChunk12 :
    iterState 540 217635 [0, 0, 1, 2, 0, 0, 2, 1, 0, 2, 1, 2] =
      some (107475, [2, 1, 2, 1, 1, 2, 2, 2, 1, 2, 2, 1]) := by
  with_unfolding_all rfl

set_option maxRecDepth 2000000 in
set_option maxHeartbeats 16000000 in
/-- Segment 13 of the window-dynamics cycle, checked by kernel
evaluation. -/
lemma iterChunk13 :
    iterState 540 107475 [2, 1, 2, 1, 1, 2, 2, 2, 1, 2, 2, 1] =
      some (230595, [2, 1, 1, 1, 1, 1, 1, 2, 0, 2, 0, 2]) := by
  with_unfolding_all rfl

set_option maxRecDepth 2000000 in
set_option maxHeartbeats 16000000 in
/-- Segment 14 of the window-dynamics cycle, checked by kernel
evaluation. -/
lemma iterChunk14 :
    iterState 540 230595 [2, 1, 1, 1, 1, 1, 1, 2, 0, 2, 0, 2] =
      some (120435, [1, 2, 2, 0, 2, 2, 1, 0, 1, 1, 0, 1]) := by
  with_unfolding_all rfl

set_option maxRecDepth 2000000 in
set_option maxHeartbeats 16000000 in
/-- Segment 15 of the window-dynamics cycle, checked by kernel
evaluation. -/
lemma iterChunk15 :
    iterState 540 120435 [1, 2, 2, 0, 2, 2, 1, 0, 1, 1, 0, 1] =
      some (10275, [1, 2, 1, 0, 2, 1, 0, 0, 0, 1, 1, 0]) := by
  with_unfolding_all rfl

set_option maxRecDepth 2000000 in
set_option maxHeartbeats 16000000 in
/-- Segment 16 of the window-dynamics cycle, checked by kernel
evaluation. -/
lemma iterChunk16 :
    iterState 540 10275 [1, 2, 1, 0, 2, 1, 0, 0, 0, 1, 1, 0] =
      some (133395, [1, 0, 0, 0, 0, 2, 0, 1, 1, 0, 1, 1]) := by
  with_unfolding_all rfl

set_option maxRecDepth 2000000 in
set_option maxHeartbeats 16000000 in
/-- Segment 17 of the window-dynamics cycle, checked by kernel
evaluation. -/
lemma iterChunk17 :
    iterState 540 133395 [1, 0, 0, 0, 0, 2, 0, 1, 1, 0, 1, 1] =
      some (23235, [0, 0, 1, 2, 1, 1, 0, 2, 0, 0, 2, 0]) := by
  with_unfolding_all rfl

set_option maxRecDepth 2000000 in
set_option maxHeartbeats 16000000 in
/-- Segment 18 of the window-dynamics cycle, checked by kernel
evaluation. -/
lemma iterChunk18 :
    iterState 540 23235 [0, 0, 1, 2, 1, 1, 0, 2, 0, 0, 2, 0] =
      some (146355, [0, 1, 0, 2, 1, 2, 2, 2, 2, 0, 2, 1]) := by
  with_unfolding_all rfl

set_option maxRecDepth 2000000 in
set_option maxHeartbeats 16000000 in
/-- Segment 19 of the window-dynamics cycle, checked by kernel
evaluation. -/
lemma iterChunk19 :
    iterState 540 146355 [0, 1, 0, 2, 1, 2, 2, 2, 2, 0, 2, 1] =
      some (36195, [2, 2, 1, 1, 2, 1, 2, 0, 0, 2, 0, 0]) := by
  with_unfolding_all rfl

set_option maxRecDepth 2000000 in
set_option maxHeartbeats 16000000 in
/-- Segment 20 of the window-dynamics cycle, checked by kernel
evaluation. -/
lemma iterChunk20 :
    iterState 540 36195 [2, 2, 1, 1, 2, 1, 2, 0, 0, 2, 0, 0] =
      some (159315, [2, 2, 0, 1, 2, 0, 1, 0, 2, 2, 1, 2]) := by
  with_unfolding_all rfl

set_option maxRecDepth 2000000 in
set_option maxHeartbeats 16000000 in
/-- Segment 21 of the window-dynamics cycle, checked by kernel
evaluation. -/
lemma iterChunk21 :
    iterState 540 159315 [2, 2, 0, 1, 2, 0, 1, 0, 2, 2, 1, 2] =
      some (49155, [2, 0, 2, 0, 0, 1, 1, 1, 0, 1, 1, 0]) := by
  with_unfolding_all rfl

set_option maxRecDepth 2000000 in
set_option maxHeartbeats 16000000 in
/-- Segment 22 of the window-dynamics cycle, checked by kernel
evaluation. -/
lemma iterChunk22 :
    iterState 540 49155 [2, 0, 2, 0, 0, 1, 1, 1, 0, 1, 1, 0] =
      some (172275, [1, 0, 0, 0, 0, 0, 1, 2, 2, 1, 2, 2]) := by
  with_unfolding_all rfl

set_option maxRecDepth 2000000 in
set_option maxHeartbeats 16000000 in
/-- Segment 23 of the window-dynamics cycle, checked by kernel
evaluation. -/
lemma iterChunk23 :
    iterState 540 172275 [1, 0, 0, 0, 0, 0, 1, 2, 2, 1, 2, 2] =
      some (62115, [1, 1, 2, 0, 1, 1, 0, 2, 1, 0, 2, 0]) := by
  with_unfolding_all rfl

set_option maxRecDepth 2000000 in
set_option maxHeartbeats 16000000 in
/-- Segment 24 of the window-dynamics cycle, checked by kernel
evaluation. -/
lemma iterChunk24 :
    iterState 540 62115 [1, 1, 2, 0, 1, 1, 0, 2, 1, 0, 2, 0] =
      some (185235, [0, 2, 0, 2, 2, 0, 0, 0, 2, 0, 0, 2]) := by
  with_unfolding_all rfl

set_option maxRecDepth 2000000 in
set_option maxHeartbeats 16000000 in
/-- Segment 25 of the window-dynamics cycle, checked by kernel
evaluation. -/
lemma iterChunk25 :
    iterState 540 185235 [0, 2, 0, 2, 2, 0, 0, 0, 2, 0, 0, 2] =
      some (75075, [0, 2, 2, 2, 2, 2, 2, 0, 1, 0, 1, 0]) := by
  with_unfolding_all rfl

set_option maxRecDepth 2000000 in
set_option maxHeartbeats 16000000 in
/-- Segment 26 of the window-dynamics cycle, checked by kernel
evaluation. -/
lemma iterChunk26 :
    iterState 540 75075 [0, 2, 2, 2, 2, 2, 2, 0, 1, 0, 1, 0] =
      some (198195, [2, 0, 0, 1, 0, 0, 2, 1, 2, 2, 1, 2]) := by
  with_unfolding_all rfl

set_option maxRecDepth 2000000 in
set_option maxHeartbeats 16000000 in
/-- Segment 27 of the window-dynamics cycle, checked by kernel
evaluation. -/
lemma iterChunk27 :
    iterState 540 198195 [2, 0, 0, 1, 0, 0, 2, 1, 2, 2, 1, 2] =
      some (88035, [2, 0, 2, 1, 0, 2, 1, 1, 1, 2, 2, 1]) := by
  with_unfolding_all rfl

set_option maxRecDepth 2000000 in
set_option maxHeartbeats 16000000 in
/-- Segment 28 of the window-dynamics cycle, checked by kernel
evaluation. -/
lemma iterChunk28 :
    iterState 540 88035 [2, 0, 2, 1, 0, 2, 1, 1, 1, 2, 2, 1] =
      some (211155, [2, 1, 1, 1, 1, 0, 1, 2, 2, 1, 2, 2]) := by
  with_unfolding_all rfl

set_option maxRecDepth 2000000 in
set_option maxHeartbeats 16000000 in
/-- Segment 29 of the window-dynamics cycle, checked by kernel
evaluation. -/
lemma iterChunk29 :
    iterState 540 211155 [2, 1, 1, 1, 1, 0, 1, 2, 2, 1, 2, 2] =
      some (100995, [1, 1, 2, 0, 2, 2, 1, 0, 1, 1, 0, 1]) := by
  with_unfolding_all rfl

set_option maxRecDepth 2000000 in
set_option maxHeartbeats 16000000 in
/-- Segment 30 of the window-dynamics cycle, checked by kernel
evaluation. -/
lemma iterChunk30 :
    iterState 540 100995 [1, 1, 2, 0, 2, 2, 1, 0, 1, 1, 0, 1] =
      some (224115, [1, 2, 1, 0, 2, 0, 0, 0, 0, 1, 0, 2]) := by
  with_unfolding_all rfl

set_option maxRecDepth 2000000 in
set_option maxHeartbeats 16000000 in
/-- Segment 31 of the window-dynamics cycle, checked by kernel
evaluation. -/
lemma iterChunk31 :
    iterState 540 224115 [1, 2, 1, 0, 2, 0, 0, 0, 0, 1, 0, 2] =
      some (113955, [0, 0, 2, 2, 0, 2, 0, 1, 1, 0, 1, 1]) := by
  with_unfolding_all rfl

set_option maxRecDepth 2000000 in
set_option maxHeartbeats 16000000 in
/-- Segment 32 of the window-dynamics cycle, checked by kernel
evaluation. -/
lemma iterChunk32 :
    iterState 540 113955 [0, 0, 2, 2, 0, 2, 0, 1, 1, 0, 1, 1] =
      some (3795, [0, 0, 1, 2, 0, 1, 2, 1, 0, 0, 2, 0]) := by
  with_unfolding_all rfl

set_option maxRecDepth 2000000 in
set_option maxHeartbeats 16000000 in
/-- Segment 33 of the window-dynamics cycle, checked by kernel
evaluation. -/
lemma iterChunk33 :
    iterState 540 3795 [0, 0, 1, 2, 0, 1, 2, 1, 0, 0, 2, 0] =
      some (126915, [0, 1, 0, 1, 1, 2, 2, 2, 1, 2, 2, 1]) := by
  with_unfolding_all rfl

set_option maxRecDepth 2000000 in
set_option maxHeartbeats 16000000 in
/-- Segment 34 of the window-dynamics cycle, checked by kernel
evaluation. -/
lemma iterChunk34 :
    iterState 540 126915 [0, 1, 0, 1, 1, 2, 2, 2, 1, 2, 2, 1] =
      some (16755, [2, 1, 1, 1, 1, 1, 2, 0, 0, 2, 0, 0]) := by
  with_unfolding_all rfl

set_option maxRecDepth 2000000 in
set_option maxHeartbeats 16000000 in
/-- Segment 35 of the window-dynamics cycle, checked by kernel
evaluation. -/
lemma iterChunk35 :
    iterState 540 16755 [2, 1, 1, 1, 1, 1, 2, 0, 0, 2, 0, 0] =
      some (139875, [2, 2, 0, 1, 2, 2, 1, 0, 2, 1, 0, 1]) := by
  with_unfolding_all rfl

/-- The reseed-window dynamics of the diverging run return to their
initial state after 19440 iterations without ever converging. -/
lemma iter_cycle : iterState 19440 139875 w0 = some (139875, w0) :=
  iterState_chain 540 18900 19440 _ _ _ _ _ _ rfl iterChunk0
    (iterState_chain 540 18360 18900 _ _ _ _ _ _ rfl iterChunk1
    (iterState_chain 540 17820 18360 _ _ _ _ _ _ rfl iterChunk2
    (iterState_chain 540 17280 17820 _ _ _ _ _ _ rfl iterChunk3
    (iterState_chain 540 16740 17280 _ _ _ _ _ _ rfl iterChunk4
    (iterState_chain 540 16200 16740 _ _ _ _ _ _ rfl iterChunk5
    (iterState_chain 540 15660 16200 _ _ _ _ _ _ rfl iterChunk6
    (iterState_chain 540 15120 15660 _ _ _ _ _ _ rfl iterChunk7
    (iterState_chain 540 14580 15120 _ _ _ _ _ _ rfl iterChunk8
    (iterState_chain 540 14040 14580 _ _ _ _ _ _ rfl iterChunk9
    (iterState_chain 540 13500 14040 _ _ _ _ _ _ rfl iterChunk10
    (iterState_chain 540 12960 13500 _ _ _ _ _ _ rfl iterChunk11
    (iterState_chain 540 12420 12960 _ _ _ _ _ _ rfl iterChunk12
    (iterState_chain 540 11880 12420 _ _ _ _ _ _ rfl iterChunk13
    (iterState_chain 540 11340 11880 _ _ _ _ _ _ rfl iterChunk14
    (iterState_chain 540 10800 11340 _ _ _ _ _ _ rfl iterChunk15
    (iterState_chain 540 10260 10800 _ _ _ _ _ _ rfl iterChunk16
    (iterState_chain 540 9720 10260 _ _ _ _ _ _ rfl iterChunk17
    (iterState_chain 540 9180 9720 _ _ _ _ _ _ rfl iterChunk18
    (iterState_chain 540 8640 9180 _ _ _ _ _ _ rfl iterChunk19
    (iterState_chain 540 8100 8640 _ _ _ _ _ _ rfl iterChunk20
    (iterState_chain 540 7560 8100 _ _ _ _ _ _ rfl iterChunk21
    (iterState_chain 540 7020 7560 _ _ _ _ _ _ rfl iterChunk22
    (iterState_chain 540 6480 7020 _ _ _ _ _ _ rfl iterChunk23
    (iterState_chain 540 5940 6480 _ _ _ _ _ _ rfl iterChunk24
    (iterState_chain 540 5400 5940 _ _ _ _ _ _ rfl iterChunk25
    (iterState_chain 540 4860 5400 _ _ _ _ _ _ rfl iterChunk26
    (iterState_chain 540 4320 4860 _ _ _ _ _ _ rfl iterChunk27
    (iterState_chain 540 3780 4320 _ _ _ _ _ _ rfl iterChunk28
    (iterState_chain 540 3240 3780 _ _ _ _ _ _ rfl iterChunk29
    (iterState_chain 540 2700 3240 _ _ _ _ _ _ rfl iterChunk30
    (iterState_chain 540 2160 2700 _ _ _ _ _ _ rfl iterChunk31
    (iterState_chain 540 1620 2160 _ _ _ _ _ _ rfl iterChunk32
    (iterState_chain 540 1080 1620 _ _ _ _ _ _ rfl iterChunk33
    (iterState_chain 540 540 1080 _ _ _ _ _ _ rfl iterChunk34
    (iterChunk35)))))))))))))))))))))))))))))))))))

/-- A run that survives `b` steps survives any earlier prefix. -/
lemma iterState_ne_none_mono (a b s : ℕ) (w : List ℕ) (hab : a ≤ b)
    (hb2 : iterState b s w ≠ none) : iterState a s w ≠ none := by
  intro hnone
  apply hb2
  obtain ⟨c, rfl⟩ := Nat.exists_eq_add_of_le hab
  rw [iterState_add, hnone]
  rfl

/-- Periodicity of the diverging run. -/
lemma iter_period (n : ℕ) :
    iterState (19440 + n) 139875 w0 = iterState n 139875 w0 := by
  rw [iterState_add, iter_cycle]
  rfl

/-- The diverging run never converges, at any iteration count. -/
lemma iter_never_none : ∀ n, iterState n 139875 w0 ≠ none := by
  intro n
  induction n using Nat.strong_induction_on with
  | _ n ih =>
    rcases lt_or_ge n 19440 with h | h
    · refine iterState_ne_none_mono n 19440 _ _ (le_of_lt h) ?_
      rw [iter_cycle]
      simp
    · obtain ⟨m, rfl⟩ := Nat.exists_eq_add_of_le h
      rw [iter_period]
      exact ih m (by omega)

/-- The loop body never exits on the diverging state, whatever the fuel. -/
lemma kMeansGo_none :
    ∀ (fuel s : ℕ) (w : List ℕ), w.length = 12 → (∀ x ∈ w, x < 3) →
      (∀ n, iterState n s w ≠ none) →
      kMeansGo D3 15 fuel s (stateOf w) = none := by
  intro fuel
  induction fuel with
  | zero =>
    intro s w _ _ _
    rfl
  | succ fuel ih =>
    intro s w hw hb hiter
    have h1 := hiter 1
    have hne : ((binRun 12 s).1 == w) = false := by
      cases h : ((binRun 12 s).1 == w) with
      | false => rfl
      | true => exact absurd (iterState_succ_conv 0 s w h) h1
    rw [kMeansGo_step w s fuel hw hb hne]
    refine ih (binRun 12 s).2 (binRun 12 s).1 (binRun_length 12 s)
      (binRun_lt 12 s) ?_
    intro n
    have h2 := hiter (n + 1)
    rwa [iterState_succ n s w hne] at h2

/-- Initialization of the diverging run: 15 seeded draws from seed 0 land
on bins 0, 2, 1 and then the 12 bins of `w0`, ending at seed 139875. -/
lemma init_D3 : initCentroids D3 15 0 = (stateOf w0, 139875) := by
  with_unfolding_all rfl

/-- The window `w0` has the twelve in-range bins of the diverging run. -/
lemma w0_lt : ∀ x ∈ w0, x < 3 := by decide

/-- kMeans on the dataset [[0], [1], [3]] with k = 15 runs forever. -/
lemma kMeans_D3_diverges : kMeansDiverges D3 15 := by
  intro fuel
  show kMeansGo D3 15 fuel (initCentroids D3 15 0).2
    (initCentroids D3 15 0).1 = none
  rw [init_D3]
  exact kMeansGo_none fuel 139875 w0 rfl w0_lt iter_never_none

/-- C2, counterexample: the dataset [[0], [1], [3]] is non-empty and
k = 15 ≥ 1, yet kMeans([[0], [1], [3]], 15) never terminates — the twelve
clusters that stay empty forever are reseeded from the seeded generator
every iteration, the reseed window recurs with period 19440, and the
exact-equality convergence test of line 177 never succeeds — so kMeans
imposes no maximum-iteration safety bound and never returns a best
available palette. -/
theorem kMeans_loops_forever_example :
    D3 ≠ [] ∧ 1 ≤ 15 ∧ kMeansDiverges D3 15 :=
  ⟨by simp [D3], by norm_num, kMeans_D3_diverges⟩

/-- C2, amended: the `while (true)` loop of kMeans (line 157) has no
maximum-iteration bound of any size: for every candidate bound B there is
a non-empty dataset and a k ≥ 1 — concretely [[0], [1], [3]] with k = 15 —
on which the loop is still running after B iterations, having returned
nothing. -/
theorem kMeans_no_iteration_bound :
    ∀ B : ℕ, ∃ (D : List Point) (k : ℕ),
      D ≠ [] ∧ 1 ≤ k ∧ kMeans D k B = none :=
  fun B => ⟨D3, 15, by simp [D3], by norm_num, kMeans_D3_diverges B⟩
